import Mathlib

/-!
# nesem: the NES 6502 core and its bus

A shallow embedding of `src/src/Bus.cpp`, `src/src/NES6502.cpp` and the opcode
table of `src/include/NES6502.h`.

Machine integers are natural numbers; every store into a `uint8_t` or
`uint16_t` object (assignment, parameter passing, return) is an explicit
reduction modulo `2^8` or `2^16`.  Member-function pointers of the opcode
table are tags, dispatched by `runAddrMode` and `runInstruction`.
-/

namespace Nesem

/-- The 64 KiB array behind `Bus::ram`, as a function from index to cell. -/
abbrev Ram := Nat → Nat

namespace Bus

/-- `uint8_t Bus::ReadRam(uint16_t addr, bool bReadOnly) const`; a cell of `ram` is a
`uint8_t`, so what is read is a byte. -/
def ReadRam (ram : Ram) (addr : Nat) : Nat :=
  let addr := addr % 65536
  if 0x0000 ≤ addr ∧ addr ≤ 0xFFFF then ram addr % 256 else 0

/-- `void Bus::WriteRam(uint16_t addr, uint8_t data) const`. -/
def WriteRam (ram : Ram) (addr data : Nat) : Ram :=
  let addr := addr % 65536
  let data := data % 256
  if 0x0000 ≤ addr ∧ addr ≤ 0xFFFF then fun i => if i = addr then data else ram i else ram

end Bus

/-- The `enum FLAGS` of the CPU: one bit of the status register each. -/
structure FLAGS where
  mask : Nat
deriving DecidableEq, Repr

namespace FLAGS

/-- Carry bit flag. -/
abbrev C : FLAGS := ⟨1 <<< 0⟩
/-- Zero flag. -/
abbrev Z : FLAGS := ⟨1 <<< 1⟩
/-- Disable interrupts flag. -/
abbrev I : FLAGS := ⟨1 <<< 2⟩
/-- Decimal mode flag. -/
abbrev D : FLAGS := ⟨1 <<< 3⟩
/-- Break flag. -/
abbrev B : FLAGS := ⟨1 <<< 4⟩
/-- Unused flag. -/
abbrev U : FLAGS := ⟨1 <<< 5⟩
/-- Overflow flag. -/
abbrev V : FLAGS := ⟨1 <<< 6⟩
/-- Negative flag. -/
abbrev N : FLAGS := ⟨1 <<< 7⟩

end FLAGS

/-- The CPU object together with the RAM its `bus` pointer reaches. -/
structure NES6502 where
  bus : Ram
  a : Nat
  x : Nat
  y : Nat
  stkp : Nat
  pc : Nat
  status : Nat
  fetchedData : Nat
  addr_abs : Nat
  addr_rel : Nat
  opcode : Nat
  cycles : Nat

/-- Tags for the addressing-mode member functions. -/
inductive ModeTag where
  | IMP | IMM | ZP0 | ZPX | ZPY | REL | ABS | ABX | ABY | IND | IZX | IZY
deriving DecidableEq, Repr

/-- Tags for the instruction member functions. -/
inductive InstrTag where
  | ADC | AND | ASL | BCC | BCS | BEQ | BIT | BMI | BNE | BPL | BRK | BVC | BVS
  | CLC | CLD | CLI | CLV | CMP | CPX | CPY | DEC | DEX | DEY | EOR | INC | INX
  | INY | JMP | JSR | LDA | LDX | LDY | LSR | NOP | ORA | PHA | PHP | PLA | PLP
  | ROL | ROR | RTI | RTS | SBC | SEC | SED | SEI | STA | STX | STY | TAX | TAY
  | TSX | TXA | TXS | TYA | XXX
deriving DecidableEq, Repr

/-- One row of the opcode table (`struct Instruction`). -/
structure Instruction where
  name : String
  instruction : InstrTag
  addrMode : ModeTag
  cycles : Nat

/-- The C operator `~` on an `int`, as a 32-bit two's-complement bit pattern. -/
def cnot (v : Nat) : Nat := v ^^^ 0xFFFFFFFF

/-- Conversion of an integer expression to `bool`. -/
def toBool (v : Nat) : Bool := decide (v ≠ 0)

/-- The opcode table `instructionSetLookup`, indexed by opcode. -/
def instructionSetLookup : List Instruction := [
  -- 0x00 - 0x0F
  Instruction.mk "BRK" InstrTag.BRK ModeTag.IMM 7,
  Instruction.mk "ORA" InstrTag.ORA ModeTag.IZX 6,
  Instruction.mk "???" InstrTag.XXX ModeTag.IMP 2,
  Instruction.mk "???" InstrTag.XXX ModeTag.IMP 8,
  Instruction.mk "???" InstrTag.NOP ModeTag.IMP 3,
  Instruction.mk "ORA" InstrTag.ORA ModeTag.ZP0 3,
  Instruction.mk "ASL" InstrTag.ASL ModeTag.ZP0 5,
  Instruction.mk "???" InstrTag.XXX ModeTag.IMP 5,
  Instruction.mk "PHP" InstrTag.PHP ModeTag.IMP 3,
  Instruction.mk "ORA" InstrTag.ORA ModeTag.IMM 2,
  Instruction.mk "ASL" InstrTag.ASL ModeTag.IMP 2,
  Instruction.mk "???" InstrTag.XXX ModeTag.IMP 2,
  Instruction.mk "???" InstrTag.NOP ModeTag.IMP 4,
  Instruction.mk "ORA" InstrTag.ORA ModeTag.ABS 4,
  Instruction.mk "ASL" InstrTag.ASL ModeTag.ABS 6,
  Instruction.mk "???" InstrTag.XXX ModeTag.IMP 6,
  -- 0x10 - 0x1F
  Instruction.mk "BPL" InstrTag.BPL ModeTag.REL 2,
  Instruction.mk "ORA" InstrTag.ORA ModeTag.IZY 5,
  Instruction.mk "???" InstrTag.XXX ModeTag.IMP 2,
  Instruction.mk "???" InstrTag.XXX ModeTag.IMP 8,
  Instruction.mk "???" InstrTag.NOP ModeTag.IMP 4,
  Instruction.mk "ORA" InstrTag.ORA ModeTag.ZPX 4,
  Instruction.mk "ASL" InstrTag.ASL ModeTag.ZPX 6,
  Instruction.mk "???" InstrTag.XXX ModeTag.IMP 6,
  Instruction.mk "CLC" InstrTag.CLC ModeTag.IMP 2,
  Instruction.mk "ORA" InstrTag.ORA ModeTag.ABY 4,
  Instruction.mk "???" InstrTag.NOP ModeTag.IMP 2,
  Instruction.mk "???" InstrTag.XXX ModeTag.IMP 7,
  Instruction.mk "???" InstrTag.NOP ModeTag.IMP 4,
  Instruction.mk "ORA" InstrTag.ORA ModeTag.ABX 4,
  Instruction.mk "ASL" InstrTag.ASL ModeTag.ABX 7,
  Instruction.mk "???" InstrTag.XXX ModeTag.IMP 7,
  -- 0x20 - 0x2F
  Instruction.mk "JSR" InstrTag.JSR ModeTag.ABS 6,
  Instruction.mk "AND" InstrTag.AND ModeTag.IZX 6,
  Instruction.mk "???" InstrTag.XXX ModeTag.IMP 2,
  Instruction.mk "???" InstrTag.XXX ModeTag.IMP 8,
  Instruction.mk "BIT" InstrTag.BIT ModeTag.ZP0 3,
  Instruction.mk "AND" InstrTag.AND ModeTag.ZP0 3,
  Instruction.mk "ROL" InstrTag.ROL ModeTag.ZP0 5,
  Instruction.mk "???" InstrTag.XXX ModeTag.IMP 5,
  Instruction.mk "PLP" InstrTag.PLP ModeTag.IMP 4,
  Instruction.mk "AND" InstrTag.AND ModeTag.IMM 2,
  Instruction.mk "ROL" InstrTag.ROL ModeTag.IMP 2,
  Instruction.mk "???" InstrTag.XXX ModeTag.IMP 2,
  Instruction.mk "BIT" InstrTag.BIT ModeTag.ABS 4,
  Instruction.mk "AND" InstrTag.AND ModeTag.ABS 4,
  Instruction.mk "ROL" InstrTag.ROL ModeTag.ABS 6,
  Instruction.mk "???" InstrTag.XXX ModeTag.IMP 6,
  -- 0x30 - 0x3F
  Instruction.mk "BMI" InstrTag.BMI ModeTag.REL 2,
  Instruction.mk "AND" InstrTag.AND ModeTag.IZY 5,
  Instruction.mk "???" InstrTag.XXX ModeTag.IMP 2,
  Instruction.mk "???" InstrTag.XXX ModeTag.IMP 8,
  Instruction.mk "???" InstrTag.NOP ModeTag.IMP 4,
  Instruction.mk "AND" InstrTag.AND ModeTag.ZPX 4,
  Instruction.mk "ROL" InstrTag.ROL ModeTag.ZPX 6,
  Instruction.mk "???" InstrTag.XXX ModeTag.IMP 6,
  Instruction.mk "SEC" InstrTag.SEC ModeTag.IMP 2,
  Instruction.mk "AND" InstrTag.AND ModeTag.ABY 4,
  Instruction.mk "???" InstrTag.NOP ModeTag.IMP 2,
  Instruction.mk "???" InstrTag.XXX ModeTag.IMP 7,
  Instruction.mk "???" InstrTag.NOP ModeTag.IMP 4,
  Instruction.mk "AND" InstrTag.AND ModeTag.ABX 4,
  Instruction.mk "ROL" InstrTag.ROL ModeTag.ABX 7,
  Instruction.mk "???" InstrTag.XXX ModeTag.IMP 7,
  -- 0x40 - 0x4F
  Instruction.mk "RTI" InstrTag.RTI ModeTag.IMP 6,
  Instruction.mk "EOR" InstrTag.EOR ModeTag.IZX 6,
  Instruction.mk "???" InstrTag.XXX ModeTag.IMP 2,
  Instruction.mk "???" InstrTag.XXX ModeTag.IMP 8,
  Instruction.mk "???" InstrTag.NOP ModeTag.IMP 3,
  Instruction.mk "EOR" InstrTag.EOR ModeTag.ZP0 3,
  Instruction.mk "LSR" InstrTag.LSR ModeTag.ZP0 5,
  Instruction.mk "???" InstrTag.XXX ModeTag.IMP 5,
  Instruction.mk "PHA" InstrTag.PHA ModeTag.IMP 3,
  Instruction.mk "EOR" InstrTag.EOR ModeTag.IMM 2,
  Instruction.mk "LSR" InstrTag.LSR ModeTag.IMP 2,
  Instruction.mk "???" InstrTag.XXX ModeTag.IMP 2,
  Instruction.mk "JMP" InstrTag.JMP ModeTag.ABS 3,
  Instruction.mk "EOR" InstrTag.EOR ModeTag.ABS 4,
  Instruction.mk "LSR" InstrTag.LSR ModeTag.ABS 6,
  Instruction.mk "???" InstrTag.XXX ModeTag.IMP 6,
  -- 0x50 - 0x5F
  Instruction.mk "BVC" InstrTag.BVC ModeTag.REL 2,
  Instruction.mk "EOR" InstrTag.EOR ModeTag.IZY 5,
  Instruction.mk "???" InstrTag.XXX ModeTag.IMP 2,
  Instruction.mk "???" InstrTag.XXX ModeTag.IMP 8,
  Instruction.mk "???" InstrTag.NOP ModeTag.IMP 4,
  Instruction.mk "EOR" InstrTag.EOR ModeTag.ZPX 4,
  Instruction.mk "LSR" InstrTag.LSR ModeTag.ZPX 6,
  Instruction.mk "???" InstrTag.XXX ModeTag.IMP 6,
  Instruction.mk "CLI" InstrTag.CLI ModeTag.IMP 2,
  Instruction.mk "EOR" InstrTag.EOR ModeTag.ABY 4,
  Instruction.mk "???" InstrTag.NOP ModeTag.IMP 2,
  Instruction.mk "???" InstrTag.XXX ModeTag.IMP 7,
  Instruction.mk "???" InstrTag.NOP ModeTag.IMP 4,
  Instruction.mk "EOR" InstrTag.EOR ModeTag.ABX 4,
  Instruction.mk "LSR" InstrTag.LSR ModeTag.ABX 7,
  Instruction.mk "???" InstrTag.XXX ModeTag.IMP 7,
  -- 0x60 - 0x6F
  Instruction.mk "RTS" InstrTag.RTS ModeTag.IMP 6,
  Instruction.mk "ADC" InstrTag.ADC ModeTag.IZX 6,
  Instruction.mk "???" InstrTag.XXX ModeTag.IMP 2,
  Instruction.mk "???" InstrTag.XXX ModeTag.IMP 8,
  Instruction.mk "???" InstrTag.NOP ModeTag.IMP 3,
  Instruction.mk "ADC" InstrTag.ADC ModeTag.ZP0 3,
  Instruction.mk "ROR" InstrTag.ROR ModeTag.ZP0 5,
  Instruction.mk "???" InstrTag.XXX ModeTag.IMP 5,
  Instruction.mk "PLA" InstrTag.PLA ModeTag.IMP 4,
  Instruction.mk "ADC" InstrTag.ADC ModeTag.IMM 2,
  Instruction.mk "ROR" InstrTag.ROR ModeTag.IMP 2,
  Instruction.mk "???" InstrTag.XXX ModeTag.IMP 2,
  Instruction.mk "JMP" InstrTag.JMP ModeTag.IND 5,
  Instruction.mk "ADC" InstrTag.ADC ModeTag.ABS 4,
  Instruction.mk "ROR" InstrTag.ROR ModeTag.ABS 6,
  Instruction.mk "???" InstrTag.XXX ModeTag.IMP 6,
  -- 0x70 - 0x7F
  Instruction.mk "BVS" InstrTag.BVS ModeTag.REL 2,
  Instruction.mk "ADC" InstrTag.ADC ModeTag.IZY 5,
  Instruction.mk "???" InstrTag.XXX ModeTag.IMP 2,
  Instruction.mk "???" InstrTag.XXX ModeTag.IMP 8,
  Instruction.mk "???" InstrTag.NOP ModeTag.IMP 4,
  Instruction.mk "ADC" InstrTag.ADC ModeTag.ZPX 4,
  Instruction.mk "ROR" InstrTag.ROR ModeTag.ZPX 6,
  Instruction.mk "???" InstrTag.XXX ModeTag.IMP 6,
  Instruction.mk "SEI" InstrTag.SEI ModeTag.IMP 2,
  Instruction.mk "ADC" InstrTag.ADC ModeTag.ABY 4,
  Instruction.mk "???" InstrTag.NOP ModeTag.IMP 2,
  Instruction.mk "???" InstrTag.XXX ModeTag.IMP 7,
  Instruction.mk "???" InstrTag.NOP ModeTag.IMP 4,
  Instruction.mk "ADC" InstrTag.ADC ModeTag.ABX 4,
  Instruction.mk "ROR" InstrTag.ROR ModeTag.ABX 7,
  Instruction.mk "???" InstrTag.XXX ModeTag.IMP 7,
  -- 0x80 - 0x8F
  Instruction.mk "???" InstrTag.NOP ModeTag.IMP 2,
  Instruction.mk "STA" InstrTag.STA ModeTag.IZX 6,
  Instruction.mk "???" InstrTag.NOP ModeTag.IMP 2,
  Instruction.mk "???" InstrTag.XXX ModeTag.IMP 6,
  Instruction.mk "STY" InstrTag.STY ModeTag.ZP0 3,
  Instruction.mk "STA" InstrTag.STA ModeTag.ZP0 3,
  Instruction.mk "STX" InstrTag.STX ModeTag.ZP0 3,
  Instruction.mk "???" InstrTag.XXX ModeTag.IMP 3,
  Instruction.mk "DEY" InstrTag.DEY ModeTag.IMP 2,
  Instruction.mk "???" InstrTag.NOP ModeTag.IMP 2,
  Instruction.mk "TXA" InstrTag.TXA ModeTag.IMP 2,
  Instruction.mk "???" InstrTag.XXX ModeTag.IMP 2,
  Instruction.mk "STY" InstrTag.STY ModeTag.ABS 4,
  Instruction.mk "STA" InstrTag.STA ModeTag.ABS 4,
  Instruction.mk "STX" InstrTag.STX ModeTag.ABS 4,
  Instruction.mk "???" InstrTag.XXX ModeTag.IMP 4,
  -- 0x90 - 0x9F
  Instruction.mk "BCC" InstrTag.BCC ModeTag.REL 2,
  Instruction.mk "STA" InstrTag.STA ModeTag.IZY 6,
  Instruction.mk "???" InstrTag.XXX ModeTag.IMP 2,
  Instruction.mk "???" InstrTag.XXX ModeTag.IMP 6,
  Instruction.mk "STY" InstrTag.STY ModeTag.ZPX 4,
  Instruction.mk "STA" InstrTag.STA ModeTag.ZPX 4,
  Instruction.mk "STX" InstrTag.STX ModeTag.ZPY 4,
  Instruction.mk "???" InstrTag.XXX ModeTag.IMP 4,
  Instruction.mk "TYA" InstrTag.TYA ModeTag.IMP 2,
  Instruction.mk "STA" InstrTag.STA ModeTag.ABY 5,
  Instruction.mk "TXS" InstrTag.TXS ModeTag.IMP 2,
  Instruction.mk "???" InstrTag.XXX ModeTag.IMP 5,
  Instruction.mk "???" InstrTag.NOP ModeTag.IMP 5,
  Instruction.mk "STA" InstrTag.STA ModeTag.ABX 5,
  Instruction.mk "???" InstrTag.XXX ModeTag.IMP 5,
  Instruction.mk "???" InstrTag.XXX ModeTag.IMP 5,
  -- 0xA0 - 0xAF
  Instruction.mk "LDY" InstrTag.LDY ModeTag.IMM 2,
  Instruction.mk "LDA" InstrTag.LDA ModeTag.IZX 6,
  Instruction.mk "LDX" InstrTag.LDX ModeTag.IMM 2,
  Instruction.mk "???" InstrTag.XXX ModeTag.IMP 6,
  Instruction.mk "LDY" InstrTag.LDY ModeTag.ZP0 3,
  Instruction.mk "LDA" InstrTag.LDA ModeTag.ZP0 3,
  Instruction.mk "LDX" InstrTag.LDX ModeTag.ZP0 3,
  Instruction.mk "???" InstrTag.XXX ModeTag.IMP 3,
  Instruction.mk "TAY" InstrTag.TAY ModeTag.IMP 2,
  Instruction.mk "LDA" InstrTag.LDA ModeTag.IMM 2,
  Instruction.mk "TAX" InstrTag.TAX ModeTag.IMP 2,
  Instruction.mk "???" InstrTag.XXX ModeTag.IMP 2,
  Instruction.mk "LDY" InstrTag.LDY ModeTag.ABS 4,
  Instruction.mk "LDA" InstrTag.LDA ModeTag.ABS 4,
  Instruction.mk "LDX" InstrTag.LDX ModeTag.ABS 4,
  Instruction.mk "???" InstrTag.XXX ModeTag.IMP 4,
  -- 0xB0 - 0xBF
  Instruction.mk "BCS" InstrTag.BCS ModeTag.REL 2,
  Instruction.mk "LDA" InstrTag.LDA ModeTag.IZY 5,
  Instruction.mk "???" InstrTag.XXX ModeTag.IMP 2,
  Instruction.mk "???" InstrTag.XXX ModeTag.IMP 5,
  Instruction.mk "LDY" InstrTag.LDY ModeTag.ZPX 4,
  Instruction.mk "LDA" InstrTag.LDA ModeTag.ZPX 4,
  Instruction.mk "LDX" InstrTag.LDX ModeTag.ZPY 4,
  Instruction.mk "???" InstrTag.XXX ModeTag.IMP 4,
  Instruction.mk "CLV" InstrTag.CLV ModeTag.IMP 2,
  Instruction.mk "LDA" InstrTag.LDA ModeTag.ABY 4,
  Instruction.mk "TSX" InstrTag.TSX ModeTag.IMP 2,
  Instruction.mk "???" InstrTag.XXX ModeTag.IMP 4,
  Instruction.mk "LDY" InstrTag.LDY ModeTag.ABX 4,
  Instruction.mk "LDA" InstrTag.LDA ModeTag.ABX 4,
  Instruction.mk "LDX" InstrTag.LDX ModeTag.ABY 4,
  Instruction.mk "???" InstrTag.XXX ModeTag.IMP 4,
  -- 0xC0 - 0xCF
  Instruction.mk "CPY" InstrTag.CPY ModeTag.IMM 2,
  Instruction.mk "CMP" InstrTag.CMP ModeTag.IZX 6,
  Instruction.mk "???" InstrTag.NOP ModeTag.IMP 2,
  Instruction.mk "???" InstrTag.XXX ModeTag.IMP 8,
  Instruction.mk "CPY" InstrTag.CPY ModeTag.ZP0 3,
  Instruction.mk "CMP" InstrTag.CMP ModeTag.ZP0 3,
  Instruction.mk "DEC" InstrTag.DEC ModeTag.ZP0 5,
  Instruction.mk "???" InstrTag.XXX ModeTag.IMP 5,
  Instruction.mk "INY" InstrTag.INY ModeTag.IMP 2,
  Instruction.mk "CMP" InstrTag.CMP ModeTag.IMM 2,
  Instruction.mk "DEX" InstrTag.DEX ModeTag.IMP 2,
  Instruction.mk "???" InstrTag.XXX ModeTag.IMP 2,
  Instruction.mk "CPY" InstrTag.CPY ModeTag.ABS 4,
  Instruction.mk "CMP" InstrTag.CMP ModeTag.ABS 4,
  Instruction.mk "DEC" InstrTag.DEC ModeTag.ABS 6,
  Instruction.mk "???" InstrTag.XXX ModeTag.IMP 6,
  -- 0xD0 - 0xDF
  Instruction.mk "BNE" InstrTag.BNE ModeTag.REL 2,
  Instruction.mk "CMP" InstrTag.CMP ModeTag.IZY 5,
  Instruction.mk "???" InstrTag.XXX ModeTag.IMP 2,
  Instruction.mk "???" InstrTag.XXX ModeTag.IMP 8,
  Instruction.mk "???" InstrTag.NOP ModeTag.IMP 4,
  Instruction.mk "CMP" InstrTag.CMP ModeTag.ZPX 4,
  Instruction.mk "DEC" InstrTag.DEC ModeTag.ZPX 6,
  Instruction.mk "???" InstrTag.XXX ModeTag.IMP 6,
  Instruction.mk "CLD" InstrTag.CLD ModeTag.IMP 2,
  Instruction.mk "CMP" InstrTag.CMP ModeTag.ABY 4,
  Instruction.mk "NOP" InstrTag.NOP ModeTag.IMP 2,
  Instruction.mk "???" InstrTag.XXX ModeTag.IMP 7,
  Instruction.mk "???" InstrTag.NOP ModeTag.IMP 4,
  Instruction.mk "CMP" InstrTag.CMP ModeTag.ABX 4,
  Instruction.mk "DEC" InstrTag.DEC ModeTag.ABX 7,
  Instruction.mk "???" InstrTag.XXX ModeTag.IMP 7,
  -- 0xE0 - 0xEF
  Instruction.mk "CPX" InstrTag.CPX ModeTag.IMM 2,
  Instruction.mk "SBC" InstrTag.SBC ModeTag.IZX 6,
  Instruction.mk "???" InstrTag.NOP ModeTag.IMP 2,
  Instruction.mk "???" InstrTag.XXX ModeTag.IMP 8,
  Instruction.mk "CPX" InstrTag.CPX ModeTag.ZP0 3,
  Instruction.mk "SBC" InstrTag.SBC ModeTag.ZP0 3,
  Instruction.mk "INC" InstrTag.INC ModeTag.ZP0 5,
  Instruction.mk "???" InstrTag.XXX ModeTag.IMP 5,
  Instruction.mk "INX" InstrTag.INX ModeTag.IMP 2,
  Instruction.mk "SBC" InstrTag.SBC ModeTag.IMM 2,
  Instruction.mk "NOP" InstrTag.NOP ModeTag.IMP 2,
  Instruction.mk "???" InstrTag.SBC ModeTag.IMP 2,
  Instruction.mk "CPX" InstrTag.CPX ModeTag.ABS 4,
  Instruction.mk "SBC" InstrTag.SBC ModeTag.ABS 4,
  Instruction.mk "INC" InstrTag.INC ModeTag.ABS 6,
  Instruction.mk "???" InstrTag.XXX ModeTag.IMP 6,
  -- 0xF0 - 0xFF
  Instruction.mk "BEQ" InstrTag.BEQ ModeTag.REL 2,
  Instruction.mk "SBC" InstrTag.SBC ModeTag.IZY 5,
  Instruction.mk "???" InstrTag.XXX ModeTag.IMP 2,
  Instruction.mk "???" InstrTag.XXX ModeTag.IMP 8,
  Instruction.mk "???" InstrTag.NOP ModeTag.IMP 4,
  Instruction.mk "SBC" InstrTag.SBC ModeTag.ZPX 4,
  Instruction.mk "INC" InstrTag.INC ModeTag.ZPX 6,
  Instruction.mk "???" InstrTag.XXX ModeTag.IMP 6,
  Instruction.mk "SED" InstrTag.SED ModeTag.IMP 2,
  Instruction.mk "SBC" InstrTag.SBC ModeTag.ABY 4,
  Instruction.mk "NOP" InstrTag.NOP ModeTag.IMP 2,
  Instruction.mk "???" InstrTag.XXX ModeTag.IMP 7,
  Instruction.mk "???" InstrTag.NOP ModeTag.IMP 4,
  Instruction.mk "SBC" InstrTag.SBC ModeTag.ABX 4,
  Instruction.mk "INC" InstrTag.INC ModeTag.ABX 7,
  Instruction.mk "???" InstrTag.XXX ModeTag.IMP 7
]

/-- Indexing of the table, `instructionSetLookup[opcode]`; an opcode is a byte, so
the fallback row is never reached from `Clock`. -/
def lookup (opcode : Nat) : Instruction :=
  instructionSetLookup.getD opcode (Instruction.mk "???" InstrTag.XXX ModeTag.IMP 0)

namespace NES6502

/-! ## Memory access -/

/-- `uint8_t NES6502::ReadRam(uint16_t addr) const`. -/
def ReadRam (s : NES6502) (addr : Nat) : Nat := Bus.ReadRam s.bus (addr % 65536)

/-- `void NES6502::WriteRam(uint16_t addr, uint8_t data) const`. -/
def WriteRam (s : NES6502) (addr data : Nat) : NES6502 :=
  { s with bus := Bus.WriteRam s.bus (addr % 65536) (data % 256) }

/-! ## Status register access -/

/-- `uint8_t NES6502::GetFlag(FLAGS flag) { return 0; }`. -/
def GetFlag (_s : NES6502) (_flag : FLAGS) : Nat := 0

/-- `void NES6502::SetFlag(FLAGS flag, bool value) {}`. -/
def SetFlag (s : NES6502) (_flag : FLAGS) (_value : Bool) : NES6502 := s

/-! ## Internal emulation helpers -/

/-- `uint8_t NES6502::FetchData()`: the state after the call and the value returned. -/
def FetchData (s : NES6502) : NES6502 × Nat :=
  let s := if (lookup s.opcode).addrMode ≠ ModeTag.IMP then
      { s with fetchedData := s.ReadRam s.addr_abs }
    else s
  (s, s.fetchedData)

/-! ## Address modes

Each returns the state after the call and the `uint8_t` it returns. -/

/-- Implied address mode. -/
def IMP (s : NES6502) : NES6502 × Nat :=
  let s := { s with fetchedData := s.a }
  (s, 0)

/-- Immediate address mode: `addr_abs = pc++`. -/
def IMM (s : NES6502) : NES6502 × Nat :=
  let s := { s with addr_abs := s.pc, pc := (s.pc + 1) % 65536 }
  (s, 0)

/-- Zero page address mode. -/
def ZP0 (s : NES6502) : NES6502 × Nat :=
  let s := { s with addr_abs := s.ReadRam s.pc, pc := (s.pc + 1) % 65536 }
  let s := { s with addr_abs := s.addr_abs &&& 0x00FF }
  (s, 0)

/-- Zero page address mode with X offset. -/
def ZPX (s : NES6502) : NES6502 × Nat :=
  let s := { s with addr_abs := (s.ReadRam s.pc + s.x) % 65536, pc := (s.pc + 1) % 65536 }
  let s := { s with addr_abs := s.addr_abs &&& 0x00FF }
  (s, 0)

/-- Zero page address mode with Y offset. -/
def ZPY (s : NES6502) : NES6502 × Nat :=
  let s := { s with addr_abs := (s.ReadRam s.pc + s.y) % 65536, pc := (s.pc + 1) % 65536 }
  let s := { s with addr_abs := s.addr_abs &&& 0x00FF }
  (s, 0)

/-- Relative address mode. -/
def REL (s : NES6502) : NES6502 × Nat :=
  let s := { s with addr_rel := s.ReadRam s.pc, pc := (s.pc + 1) % 65536 }
  let s := if s.addr_rel &&& 0x0080 ≠ 0 then
      { s with addr_rel := (s.addr_rel ||| 0xFF00) % 65536 }
    else s
  (s, 0)

/-- Absolute address mode. -/
def ABS (s : NES6502) : NES6502 × Nat :=
  let lo := s.ReadRam s.pc
  let s := { s with pc := (s.pc + 1) % 65536 }
  let hi := s.ReadRam s.pc
  let s := { s with pc := (s.pc + 1) % 65536 }
  let s := { s with addr_abs := ((hi <<< 8) ||| lo) % 65536 }
  (s, 0)

/-- Absolute address mode with X offset; `(hi << 8) | lo + x` groups as
`(hi << 8) | (lo + x)`. -/
def ABX (s : NES6502) : NES6502 × Nat :=
  let lo := s.ReadRam s.pc
  let s := { s with pc := (s.pc + 1) % 65536 }
  let hi := s.ReadRam s.pc
  let s := { s with pc := (s.pc + 1) % 65536 }
  let s := { s with addr_abs := ((hi <<< 8) ||| (lo + s.x)) % 65536 }
  if (s.addr_abs &&& 0xFF00) ≠ (hi <<< 8) then (s, 1) else (s, 0)

/-- Absolute address mode with Y offset; `(hi << 8) | lo + y` groups as
`(hi << 8) | (lo + y)`. -/
def ABY (s : NES6502) : NES6502 × Nat :=
  let lo := s.ReadRam s.pc
  let s := { s with pc := (s.pc + 1) % 65536 }
  let hi := s.ReadRam s.pc
  let s := { s with pc := (s.pc + 1) % 65536 }
  let s := { s with addr_abs := ((hi <<< 8) ||| (lo + s.y)) % 65536 }
  if (s.addr_abs &&& 0xFF00) ≠ (hi <<< 8) then (s, 1) else (s, 0)

/-- Indirect address mode. -/
def IND (s : NES6502) : NES6502 × Nat :=
  let p_lo := s.ReadRam s.pc
  let s := { s with pc := (s.pc + 1) % 65536 }
  let p_hi := s.ReadRam s.pc
  let s := { s with pc := (s.pc + 1) % 65536 }
  let p_addr_abs := ((p_hi <<< 8) ||| p_lo) % 65536
  let s := if p_lo ≠ 0x00FF then
      { s with addr_abs :=
          ((s.ReadRam (p_addr_abs &&& 0xFF00) <<< 8) ||| s.ReadRam p_addr_abs) % 65536 }
    else
      { s with addr_abs :=
          ((s.ReadRam (p_addr_abs + 1) <<< 8) ||| s.ReadRam p_addr_abs) % 65536 }
  (s, 0)

/-- Indexed address mode with X offset. -/
def IZX (s : NES6502) : NES6502 × Nat :=
  let zp_addr := s.ReadRam s.pc
  let s := { s with pc := (s.pc + 1) % 65536 }
  let lo := s.ReadRam ((zp_addr + s.x) &&& 0x00FF)
  let hi := s.ReadRam ((zp_addr + s.x + 1) &&& 0x00FF)
  let s := { s with addr_abs := ((hi <<< 8) ||| lo) % 65536 }
  (s, 0)

/-- Indexed address mode with Y offset; `(hi << 8) | lo + y` groups as
`(hi << 8) | (lo + y)`. -/
def IZY (s : NES6502) : NES6502 × Nat :=
  let zp_addr := s.ReadRam s.pc
  let s := { s with pc := (s.pc + 1) % 65536 }
  let lo := s.ReadRam (zp_addr &&& 0x00FF)
  let hi := s.ReadRam ((zp_addr + 1) &&& 0x00FF)
  let s := { s with addr_abs := ((hi <<< 8) ||| (lo + s.y)) % 65536 }
  if (s.addr_abs &&& 0xFF00) ≠ (hi <<< 8) then (s, 1) else (s, 0)

/-! ## Instruction set

Each returns the state after the call and the `uint8_t` it returns. -/

/-- The argument `temp > 0x00FF` that `ADC` gives `SetFlag(C, ...)`. -/
def ADC_argC (temp : Nat) : Bool := decide (temp > 0x00FF)

/-- The argument `(temp & 0x00FF) == 0` that `ADC` gives `SetFlag(Z, ...)`. -/
def ADC_argZ (temp : Nat) : Bool := decide (temp &&& 0x00FF = 0)

/-- The argument `temp & 0x0080` that `ADC` gives `SetFlag(N, ...)`. -/
def ADC_argN (temp : Nat) : Bool := toBool (temp &&& 0x0080)

/-- The argument `(~((uint16_t)a ^ (uint16_t)fetchedData) & ((uint16_t)a ^ temp)) & 0x0080`
that `ADC` gives `SetFlag(V, ...)`. -/
def ADC_argV (a fetchedData temp : Nat) : Bool :=
  toBool ((cnot (a ^^^ fetchedData) &&& (a ^^^ temp)) &&& 0x0080)

/-- Add memory to accumulator with carry. -/
def ADC (s : NES6502) : NES6502 × Nat :=
  let s := s.FetchData.1
  let temp := (s.a + s.fetchedData + s.GetFlag FLAGS.C) % 65536
  let s := s.SetFlag FLAGS.C (ADC_argC temp)
  let s := s.SetFlag FLAGS.Z (ADC_argZ temp)
  let s := s.SetFlag FLAGS.N (ADC_argN temp)
  let s := s.SetFlag FLAGS.V (ADC_argV s.a s.fetchedData temp)
  let s := { s with a := (temp &&& 0x00FF) % 256 }
  (s, 1)

/-- AND memory with accumulator. -/
def AND (s : NES6502) : NES6502 × Nat :=
  let s := s.FetchData.1
  let s := { s with a := (s.a &&& s.fetchedData) % 256 }
  let s := s.SetFlag FLAGS.Z (decide (s.a = 0))
  let s := s.SetFlag FLAGS.N (toBool (s.a &&& 0x0080))
  (s, 1)

/-- Shift left one bit (memory or accumulator) (`return 0;`). -/
def ASL (s : NES6502) : NES6502 × Nat := (s, 0)

/-- Branch on carry clear. -/
def BCC (s : NES6502) : NES6502 × Nat :=
  let s := if s.GetFlag FLAGS.C = 0 then
      let s := { s with cycles := (s.cycles + 1) % 256 }
      let s := { s with addr_abs := (s.pc + s.addr_rel) % 65536 }
      let s := if (s.addr_abs &&& 0xFF00) ≠ (s.pc &&& 0xFF00) then
          { s with cycles := (s.cycles + 1) % 256 }
        else s
      { s with pc := s.addr_abs }
    else s
  (s, 0)

/-- Branch on carry set. -/
def BCS (s : NES6502) : NES6502 × Nat :=
  let s := if s.GetFlag FLAGS.C = 1 then
      let s := { s with cycles := (s.cycles + 1) % 256 }
      let s := { s with addr_abs := (s.pc + s.addr_rel) % 65536 }
      let s := if (s.addr_abs &&& 0xFF00) ≠ (s.pc &&& 0xFF00) then
          { s with cycles := (s.cycles + 1) % 256 }
        else s
      { s with pc := s.addr_abs }
    else s
  (s, 0)

/-- Branch on result zero (i.e. if equal). -/
def BEQ (s : NES6502) : NES6502 × Nat :=
  let s := if s.GetFlag FLAGS.Z = 1 then
      let s := { s with cycles := (s.cycles + 1) % 256 }
      let s := { s with addr_abs := (s.pc + s.addr_rel) % 65536 }
      let s := if (s.addr_abs &&& 0xFF00) ≠ (s.pc &&& 0xFF00) then
          { s with cycles := (s.cycles + 1) % 256 }
        else s
      { s with pc := s.addr_abs }
    else s
  (s, 0)

/-- Test bits in memory with accumulator (`return 0;`). -/
def BIT (s : NES6502) : NES6502 × Nat := (s, 0)

/-- Branch on result minus. -/
def BMI (s : NES6502) : NES6502 × Nat :=
  let s := if s.GetFlag FLAGS.N = 1 then
      let s := { s with cycles := (s.cycles + 1) % 256 }
      let s := { s with addr_abs := (s.pc + s.addr_rel) % 65536 }
      let s := if (s.addr_abs &&& 0xFF00) ≠ (s.pc &&& 0xFF00) then
          { s with cycles := (s.cycles + 1) % 256 }
        else s
      { s with pc := s.addr_abs }
    else s
  (s, 0)

/-- Branch on result not zero (i.e. if not equal). -/
def BNE (s : NES6502) : NES6502 × Nat :=
  let s := if s.GetFlag FLAGS.Z = 0 then
      let s := { s with cycles := (s.cycles + 1) % 256 }
      let s := { s with addr_abs := (s.pc + s.addr_rel) % 65536 }
      let s := if (s.addr_abs &&& 0xFF00) ≠ (s.pc &&& 0xFF00) then
          { s with cycles := (s.cycles + 1) % 256 }
        else s
      { s with pc := s.addr_abs }
    else s
  (s, 0)

/-- Branch on result plus. -/
def BPL (s : NES6502) : NES6502 × Nat :=
  let s := if s.GetFlag FLAGS.N = 0 then
      let s := { s with cycles := (s.cycles + 1) % 256 }
      let s := { s with addr_abs := (s.pc + s.addr_rel) % 65536 }
      let s := if (s.addr_abs &&& 0xFF00) ≠ (s.pc &&& 0xFF00) then
          { s with cycles := (s.cycles + 1) % 256 }
        else s
      { s with pc := s.addr_abs }
    else s
  (s, 0)

/-- Force break (`return 0;`). -/
def BRK (s : NES6502) : NES6502 × Nat := (s, 0)

/-- Branch on overflow clear. -/
def BVC (s : NES6502) : NES6502 × Nat :=
  let s := if s.GetFlag FLAGS.V = 0 then
      let s := { s with cycles := (s.cycles + 1) % 256 }
      let s := { s with addr_abs := (s.pc + s.addr_rel) % 65536 }
      let s := if (s.addr_abs &&& 0xFF00) ≠ (s.pc &&& 0xFF00) then
          { s with cycles := (s.cycles + 1) % 256 }
        else s
      { s with pc := s.addr_abs }
    else s
  (s, 0)

/-- Branch on overflow set. -/
def BVS (s : NES6502) : NES6502 × Nat :=
  let s := if s.GetFlag FLAGS.V = 1 then
      let s := { s with cycles := (s.cycles + 1) % 256 }
      let s := { s with addr_abs := (s.pc + s.addr_rel) % 65536 }
      let s := if (s.addr_abs &&& 0xFF00) ≠ (s.pc &&& 0xFF00) then
          { s with cycles := (s.cycles + 1) % 256 }
        else s
      { s with pc := s.addr_abs }
    else s
  (s, 0)

/-- Clear carry flag. -/
def CLC (s : NES6502) : NES6502 × Nat :=
  let s := s.SetFlag FLAGS.C false
  (s, 0)

/-- Clear decimal mode. -/
def CLD (s : NES6502) : NES6502 × Nat :=
  let s := s.SetFlag FLAGS.D false
  (s, 0)

/-- Clear interrupt disable bit. -/
def CLI (s : NES6502) : NES6502 × Nat :=
  let s := s.SetFlag FLAGS.I false
  (s, 0)

/-- Clear overflow flag. -/
def CLV (s : NES6502) : NES6502 × Nat :=
  let s := s.SetFlag FLAGS.V false
  (s, 0)

/-- Compare memory with accumulator (`return 0;`). -/
def CMP (s : NES6502) : NES6502 × Nat := (s, 0)

/-- Compare memory and index X (`return 0;`). -/
def CPX (s : NES6502) : NES6502 × Nat := (s, 0)

/-- Compare memory and index Y (`return 0;`). -/
def CPY (s : NES6502) : NES6502 × Nat := (s, 0)

/-- Decrement memory by one (`return 0;`). -/
def DEC (s : NES6502) : NES6502 × Nat := (s, 0)

/-- Decrement index X by one (`return 0;`). -/
def DEX (s : NES6502) : NES6502 × Nat := (s, 0)

/-- Decrement index Y by one (`return 0;`). -/
def DEY (s : NES6502) : NES6502 × Nat := (s, 0)

/-- Exclusive-OR memory with accumulator (`return 0;`). -/
def EOR (s : NES6502) : NES6502 × Nat := (s, 0)

/-- Increment memory by one (`return 0;`). -/
def INC (s : NES6502) : NES6502 × Nat := (s, 0)

/-- Increment index X by one (`return 0;`). -/
def INX (s : NES6502) : NES6502 × Nat := (s, 0)

/-- Increment index Y by one (`return 0;`). -/
def INY (s : NES6502) : NES6502 × Nat := (s, 0)

/-- Jump to new location (`return 0;`). -/
def JMP (s : NES6502) : NES6502 × Nat := (s, 0)

/-- Jump to new location saving return address (`return 0;`). -/
def JSR (s : NES6502) : NES6502 × Nat := (s, 0)

/-- Load accumulator with memory (`return 0;`). -/
def LDA (s : NES6502) : NES6502 × Nat := (s, 0)

/-- Load index X with memory (`return 0;`). -/
def LDX (s : NES6502) : NES6502 × Nat := (s, 0)

/-- Load index Y with memory (`return 0;`). -/
def LDY (s : NES6502) : NES6502 × Nat := (s, 0)

/-- Shift one bit right (memory or accumulator) (`return 0;`). -/
def LSR (s : NES6502) : NES6502 × Nat := (s, 0)

/-- No operation (`return 0;`). -/
def NOP (s : NES6502) : NES6502 × Nat := (s, 0)

/-- OR memory with accumulator (`return 0;`). -/
def ORA (s : NES6502) : NES6502 × Nat := (s, 0)

/-- Push accumulator on stack. -/
def PHA (s : NES6502) : NES6502 × Nat :=
  let s := s.WriteRam (0x0100 + s.stkp) s.a
  let s := { s with stkp := (s.stkp + 255) % 256 }
  (s, 0)

/-- Push processor status on stack (`return 0;`). -/
def PHP (s : NES6502) : NES6502 × Nat := (s, 0)

/-- Pull accumulator from stack. -/
def PLA (s : NES6502) : NES6502 × Nat :=
  let s := { s with stkp := (s.stkp + 1) % 256 }
  let s := { s with a := s.ReadRam (0x0100 + s.stkp) }
  let s := s.SetFlag FLAGS.Z (decide (s.a = 0))
  let s := s.SetFlag FLAGS.N (toBool (s.a &&& 0x0080))
  (s, 0)

/-- Pull processor status from stack (`return 0;`). -/
def PLP (s : NES6502) : NES6502 × Nat := (s, 0)

/-- Rotate one bit left (memory or accumulator) (`return 0;`). -/
def ROL (s : NES6502) : NES6502 × Nat := (s, 0)

/-- Rotate one bit right (memory or accumulator) (`return 0;`). -/
def ROR (s : NES6502) : NES6502 × Nat := (s, 0)

/-- Return from interrupt. -/
def RTI (s : NES6502) : NES6502 × Nat :=
  let s := { s with stkp := (s.stkp + 1) % 256 }
  let s := { s with status := s.ReadRam (0x0100 + s.stkp) }
  let s := { s with status := (s.status &&& cnot FLAGS.B.mask) % 256 }
  let s := { s with status := (s.status &&& cnot FLAGS.U.mask) % 256 }
  let s := { s with stkp := (s.stkp + 1) % 256 }
  let s := { s with pc := s.ReadRam (0x0100 + s.stkp) % 65536 }
  let s := { s with stkp := (s.stkp + 1) % 256 }
  let s := { s with pc := (s.pc ||| ((s.ReadRam (0x0100 + s.stkp) % 65536) <<< 8)) % 65536 }
  (s, 0)

/-- Return from subroutine (`return 0;`). -/
def RTS (s : NES6502) : NES6502 × Nat := (s, 0)

/-- The argument `temp & 0xFF00` that `SBC` gives `SetFlag(C, ...)`. -/
def SBC_argC (temp : Nat) : Bool := toBool (temp &&& 0xFF00)

/-- The argument `(temp & 0x00FF) == 0` that `SBC` gives `SetFlag(Z, ...)`. -/
def SBC_argZ (temp : Nat) : Bool := decide (temp &&& 0x00FF = 0)

/-- The argument `temp & 0x0080` that `SBC` gives `SetFlag(N, ...)`. -/
def SBC_argN (temp : Nat) : Bool := toBool (temp &&& 0x0080)

/-- The argument `(temp ^ (uint16_t)a) & (temp ^ inv) & 0x0080` that `SBC` gives
`SetFlag(V, ...)`. -/
def SBC_argV (a inv temp : Nat) : Bool :=
  toBool (((temp ^^^ a) &&& (temp ^^^ inv)) &&& 0x0080)

/-- Subtract memory from accumulator with borrow. -/
def SBC (s : NES6502) : NES6502 × Nat :=
  let s := s.FetchData.1
  let inv := (s.fetchedData ^^^ 0x00FF) % 65536
  let temp := (s.a + inv + s.GetFlag FLAGS.C) % 65536
  let s := s.SetFlag FLAGS.C (SBC_argC temp)
  let s := s.SetFlag FLAGS.Z (SBC_argZ temp)
  let s := s.SetFlag FLAGS.N (SBC_argN temp)
  let s := s.SetFlag FLAGS.V (SBC_argV s.a inv temp)
  let s := { s with a := (temp &&& 0x00FF) % 256 }
  (s, 1)

/-- Set carry flag (`return 0;`). -/
def SEC (s : NES6502) : NES6502 × Nat := (s, 0)

/-- Set decimal flag (`return 0;`). -/
def SED (s : NES6502) : NES6502 × Nat := (s, 0)

/-- Set interrupt disable status (`return 0;`). -/
def SEI (s : NES6502) : NES6502 × Nat := (s, 0)

/-- Store accumulator in memory (`return 0;`). -/
def STA (s : NES6502) : NES6502 × Nat := (s, 0)

/-- Store index X in memory (`return 0;`). -/
def STX (s : NES6502) : NES6502 × Nat := (s, 0)

/-- Store index Y in memory (`return 0;`). -/
def STY (s : NES6502) : NES6502 × Nat := (s, 0)

/-- Transfer accumulator to index X (`return 0;`). -/
def TAX (s : NES6502) : NES6502 × Nat := (s, 0)

/-- Transfer accumulator to index Y (`return 0;`). -/
def TAY (s : NES6502) : NES6502 × Nat := (s, 0)

/-- Transfer stack pointer to index X (`return 0;`). -/
def TSX (s : NES6502) : NES6502 × Nat := (s, 0)

/-- Transfer index X to accumulator (`return 0;`). -/
def TXA (s : NES6502) : NES6502 × Nat := (s, 0)

/-- Transfer index X to stack register (`return 0;`). -/
def TXS (s : NES6502) : NES6502 × Nat := (s, 0)

/-- Transfer index Y to accumulator (`return 0;`). -/
def TYA (s : NES6502) : NES6502 × Nat := (s, 0)

/-- Capture of unofficial instructions (`return 0;`). -/
def XXX (s : NES6502) : NES6502 × Nat := (s, 0)

/-- Call through an `addrMode` member-function pointer of the table. -/
def runAddrMode (m : ModeTag) (s : NES6502) : NES6502 × Nat :=
  match m with
  | .IMP => s.IMP
  | .IMM => s.IMM
  | .ZP0 => s.ZP0
  | .ZPX => s.ZPX
  | .ZPY => s.ZPY
  | .REL => s.REL
  | .ABS => s.ABS
  | .ABX => s.ABX
  | .ABY => s.ABY
  | .IND => s.IND
  | .IZX => s.IZX
  | .IZY => s.IZY

/-- Call through an `instruction` member-function pointer of the table. -/
def runInstruction (i : InstrTag) (s : NES6502) : NES6502 × Nat :=
  match i with
  | .ADC => s.ADC
  | .AND => s.AND
  | .ASL => s.ASL
  | .BCC => s.BCC
  | .BCS => s.BCS
  | .BEQ => s.BEQ
  | .BIT => s.BIT
  | .BMI => s.BMI
  | .BNE => s.BNE
  | .BPL => s.BPL
  | .BRK => s.BRK
  | .BVC => s.BVC
  | .BVS => s.BVS
  | .CLC => s.CLC
  | .CLD => s.CLD
  | .CLI => s.CLI
  | .CLV => s.CLV
  | .CMP => s.CMP
  | .CPX => s.CPX
  | .CPY => s.CPY
  | .DEC => s.DEC
  | .DEX => s.DEX
  | .DEY => s.DEY
  | .EOR => s.EOR
  | .INC => s.INC
  | .INX => s.INX
  | .INY => s.INY
  | .JMP => s.JMP
  | .JSR => s.JSR
  | .LDA => s.LDA
  | .LDX => s.LDX
  | .LDY => s.LDY
  | .LSR => s.LSR
  | .NOP => s.NOP
  | .ORA => s.ORA
  | .PHA => s.PHA
  | .PHP => s.PHP
  | .PLA => s.PLA
  | .PLP => s.PLP
  | .ROL => s.ROL
  | .ROR => s.ROR
  | .RTI => s.RTI
  | .RTS => s.RTS
  | .SBC => s.SBC
  | .SEC => s.SEC
  | .SED => s.SED
  | .SEI => s.SEI
  | .STA => s.STA
  | .STX => s.STX
  | .STY => s.STY
  | .TAX => s.TAX
  | .TAY => s.TAY
  | .TSX => s.TSX
  | .TXA => s.TXA
  | .TXS => s.TXS
  | .TYA => s.TYA
  | .XXX => s.XXX

/-! ## CPU signals -/

/-- Clock signal: `void NES6502::Clock()`. -/
def Clock (s : NES6502) : NES6502 :=
  let s := if s.cycles = 0 then
      let s := { s with opcode := s.ReadRam s.pc, pc := (s.pc + 1) % 65536 }
      let s := { s with cycles := (lookup s.opcode).cycles }
      let r1 := runAddrMode (lookup s.opcode).addrMode s
      let s := r1.1
      let additional_cycle1 := r1.2
      let r2 := runInstruction (lookup s.opcode).instruction s
      let s := r2.1
      let additional_cycle2 := r2.2
      { s with cycles := (s.cycles + (additional_cycle1 &&& additional_cycle2)) % 256 }
    else s
  { s with cycles := (s.cycles + 255) % 256 }

/-- Reset signal: `void NES6502::Reset()`. -/
def Reset (s : NES6502) : NES6502 :=
  let s := { s with a := 0 }
  let s := { s with x := 0 }
  let s := { s with y := 0 }
  let s := { s with stkp := 0xFD }
  let s := { s with status := (0 ||| FLAGS.U.mask) % 256 }
  let s := { s with addr_abs := 0xFFFC }
  let lo := s.ReadRam s.addr_abs
  let hi := s.ReadRam (s.addr_abs + 1)
  let s := { s with pc := ((hi <<< 8) ||| lo) % 65536 }
  let s := { s with addr_rel := 0 }
  let s := { s with addr_abs := 0 }
  let s := { s with fetchedData := 0 }
  { s with cycles := 8 }

/-- Interrupt request signal: `void NES6502::IRQ()`. -/
def IRQ (s : NES6502) : NES6502 :=
  if s.GetFlag FLAGS.I = 0 then
    let s := s.WriteRam (0x0100 + s.stkp) ((s.pc >>> 8) &&& 0x00FF)
    let s := { s with stkp := (s.stkp + 255) % 256 }
    let s := s.WriteRam (0x0100 + s.stkp) (s.pc &&& 0x00FF)
    let s := { s with stkp := (s.stkp + 255) % 256 }
    let s := s.SetFlag FLAGS.B false
    let s := s.SetFlag FLAGS.U true
    let s := s.SetFlag FLAGS.I true
    let s := s.WriteRam (0x0100 + s.stkp) s.status
    let s := { s with stkp := (s.stkp + 255) % 256 }
    let s := { s with addr_abs := 0xFFFE }
    let lo := s.ReadRam s.addr_abs
    let hi := s.ReadRam (s.addr_abs + 1)
    let s := { s with pc := ((hi <<< 8) ||| lo) % 65536 }
    { s with cycles := 7 }
  else s

/-- Non-maskable interrupt request signal: `void NES6502::NMI()`. -/
def NMI (s : NES6502) : NES6502 :=
  let s := s.WriteRam (0x0100 + s.stkp) ((s.pc >>> 8) &&& 0x00FF)
  let s := { s with stkp := (s.stkp + 255) % 256 }
  let s := s.WriteRam (0x0100 + s.stkp) (s.pc &&& 0x00FF)
  let s := { s with stkp := (s.stkp + 255) % 256 }
  let s := s.SetFlag FLAGS.B false
  let s := s.SetFlag FLAGS.U true
  let s := s.SetFlag FLAGS.I true
  let s := s.WriteRam (0x0100 + s.stkp) s.status
  let s := { s with stkp := (s.stkp + 255) % 256 }
  let s := { s with addr_abs := 0xFFFA }
  let lo := s.ReadRam s.addr_abs
  let hi := s.ReadRam (s.addr_abs + 1)
  let s := { s with pc := ((hi <<< 8) ||| lo) % 65536 }
  { s with cycles := 8 }

end NES6502

open NES6502

/-! ## Cycle accounting, in the words of the specification -/

/-- Whether the branch instruction `i` finds its condition true in `s`, read through
`GetFlag` as the handlers do; `false` for every instruction that is not a branch. -/
def branchTaken (i : InstrTag) (s : NES6502) : Bool :=
  match i with
  | .BCC => decide (s.GetFlag FLAGS.C = 0)
  | .BCS => decide (s.GetFlag FLAGS.C = 1)
  | .BEQ => decide (s.GetFlag FLAGS.Z = 1)
  | .BMI => decide (s.GetFlag FLAGS.N = 1)
  | .BNE => decide (s.GetFlag FLAGS.Z = 0)
  | .BPL => decide (s.GetFlag FLAGS.N = 0)
  | .BVC => decide (s.GetFlag FLAGS.V = 0)
  | .BVS => decide (s.GetFlag FLAGS.V = 1)
  | _ => false

/-- The branch penalty of the specification: one tick for a branch whose condition holds,
and one more when the target `PC + addr_rel` lies in another page than `PC`. -/
def branchPenalty (i : InstrTag) (s : NES6502) : Nat :=
  if branchTaken i s then
    1 + (if ((s.pc + s.addr_rel) % 65536 &&& 0xFF00) ≠ (s.pc &&& 0xFF00) then 1 else 0)
  else 0

/-! ## Construction -/

/-- `NES6502::NES6502(Bus *_bus)`: the constructor of the CPU. -/
def NES6502.new (_bus : Ram) : NES6502 :=
  { bus := _bus, a := 0, x := 0, y := 0, stkp := 0, pc := 0, status := 0,
    fetchedData := 0, addr_abs := 0, addr_rel := 0, opcode := 0, cycles := 0 }

/-- The loop `while (i < RAM_SIZE) { ram[i++] = 0; }` of `Bus::Bus`, with `fuel` bounding
the number of iterations. -/
def Bus.zeroLoop (RAM_SIZE : Nat) (fuel : Nat) (ram : Ram) (i : Nat) : Ram :=
  match fuel with
  | 0 => ram
  | fuel + 1 =>
    if i < RAM_SIZE then
      Bus.zeroLoop RAM_SIZE fuel (fun j => if j = i then 0 else ram j) (i + 1)
    else ram

/-- `Bus::Bus() : cpu(this)`: the system after construction, from the contents `fresh` of the
newly allocated array.  The loop runs with fuel `RAM_SIZE`, its exact number of
iterations. -/
def Bus.new (fresh : Ram) : NES6502 :=
  let cpu := NES6502.new fresh
  let RAM_SIZE := 64 * 1024
  let ram := Bus.zeroLoop RAM_SIZE RAM_SIZE fresh 0
  let cpu := { cpu with bus := ram }
  cpu.ZP0.1

/-! ## Sequences of signals -/

/-- The three public signals driven after `Reset`. -/
inductive Signal where
  | Clock | IRQ | NMI
deriving DecidableEq, Repr

/-- One call of a signal. -/
def Signal.call (c : Signal) (s : NES6502) : NES6502 :=
  match c with
  | .Clock => s.Clock
  | .IRQ => s.IRQ
  | .NMI => s.NMI

/-- The state after the calls of `calls`, in order, from `s`. -/
def run (calls : List Signal) (s : NES6502) : NES6502 :=
  calls.foldl (fun t c => c.call t) s

/-- Whether a `Clock` call in `s` starts an `RTI` instruction. -/
def startsRTI (s : NES6502) : Bool :=
  decide (s.cycles = 0) && decide ((lookup (s.ReadRam s.pc)).instruction = InstrTag.RTI)

/-- Whether no `Clock` call of `calls`, run from `s`, starts an `RTI` instruction. -/
def noRTI (calls : List Signal) (s : NES6502) : Bool :=
  match calls with
  | [] => true
  | c :: cs => !(decide (c = Signal.Clock) && startsRTI s) && noRTI cs (c.call s)

/-! ## Concrete machines used as test inputs -/

/-- Memory holding the IRQ/BRK vector `0xFFFE -> 0x9000` and the NMI vector
`0xFFFA -> 0xA000`, zero elsewhere. -/
def vectorRam : Ram := fun i =>
  if i = 0xFFFE then 0x00 else if i = 0xFFFF then 0x90
  else if i = 0xFFFA then 0x00 else if i = 0xFFFB then 0xA0 else 0

/-- A state between instructions with `S = 0xFD`, `PC = 0x1234` and the given status. -/
def irqState (status : Nat) : NES6502 :=
  { bus := vectorRam, a := 0, x := 0, y := 0, stkp := 0xFD, pc := 0x1234, status := status,
    fetchedData := 0, addr_abs := 0, addr_rel := 0, opcode := 0, cycles := 0 }

/-- A state between instructions at `PC = 0x8000` in front of the two bytes `opc m`, with
`A = 0x50` and the given status. -/
def aluState (opc m status : Nat) : NES6502 :=
  { bus := fun i => if i = 0x8000 then opc else if i = 0x8001 then m else 0,
    a := 0x50, x := 0, y := 0, stkp := 0xFD, pc := 0x8000, status := status,
    fetchedData := 0, addr_abs := 0, addr_rel := 0, opcode := 0, cycles := 0 }

/-- A state between instructions at `PC = 0x80F0` in front of `90 20` (BCC +32). -/
def branchState : NES6502 :=
  { bus := fun i => if i = 0x80F0 then 0x90 else if i = 0x80F1 then 0x20 else 0,
    a := 0, x := 0, y := 0, stkp := 0xFD, pc := 0x80F0, status := 0x20, fetchedData := 0,
    addr_abs := 0, addr_rel := 0, opcode := 0, cycles := 0 }

/-- A state in the middle of an instruction, three ticks before the next boundary. -/
def busyState : NES6502 :=
  { bus := vectorRam, a := 1, x := 2, y := 3, stkp := 0xFD, pc := 0x8002, status := 0x20,
    fetchedData := 4, addr_abs := 5, addr_rel := 6, opcode := 0xA9, cycles := 3 }

/-- The state `SBC` is entered in after `E9 30` has been decoded as SBC immediate. -/
def sbcOperandState : NES6502 :=
  { aluState 0xE9 0x30 0x20 with opcode := 0xE9, addr_abs := 0x8001, pc := 0x8002 }

/-- The state `ADC` is entered in after `69 CF` has been decoded as ADC immediate;
`0xCF = 0x30 XOR 0xFF`. -/
def adcOperandState : NES6502 :=
  { aluState 0x69 0xCF 0x20 with opcode := 0x69, addr_abs := 0x8001, pc := 0x8002 }

/-- Memory holding the listed `(address, byte)` cells, zero elsewhere. -/
def cellsRam (cells : List (Nat × Nat)) : Ram := fun i =>
  match cells.lookup i with
  | some v => v
  | none => 0

/-- A state between instructions over `cellsRam cells`, with `S = 0xFD` and the given
`PC`, `A`, `X`, `Y` and status. -/
def machine (cells : List (Nat × Nat)) (pc a x y status : Nat) : NES6502 :=
  { bus := cellsRam cells, a := a, x := x, y := y, stkp := 0xFD, pc := pc, status := status,
    fetchedData := 0, addr_abs := 0, addr_rel := 0, opcode := 0, cycles := 0 }

/-- `F0 20` (BEQ +32) at `0x80F0` with the Z bit of `P` set. -/
def beqState : NES6502 := machine [(0x80F0, 0xF0), (0x80F1, 0x20)] 0x80F0 0 0 0 0x02

/-- `90 20` (BCC +32) at `0x80F0` with the C bit of `P` set. -/
def bccState : NES6502 := machine [(0x80F0, 0x90), (0x80F1, 0x20)] 0x80F0 0 0 0 0x01

/-- The operand `FF 30` at `0x8001`, with `0x30FF = 0x80`, `0x3000 = 0x50` and
`0x3100 = 0x40`; `PC` is past the opcode `6C`. -/
def indWrapState : NES6502 :=
  machine [(0x8000, 0x6C), (0x8001, 0xFF), (0x8002, 0x30), (0x30FF, 0x80), (0x3000, 0x50),
    (0x3100, 0x40)] 0x8001 0 0 0 0x20

/-- The operand `00 30` at `0x8001`, with `0x3000 = 0x50` and `0x3001 = 0x40`. -/
def indPlainState : NES6502 :=
  machine [(0x8000, 0x6C), (0x8001, 0x00), (0x8002, 0x30), (0x3000, 0x50), (0x3001, 0x40)]
    0x8001 0 0 0 0x20

/-- The operand `FF 01` at `0x8001` with `X = Y = 1`: `lo = 0xFF`, `hi = 0x01`. -/
def indexedState : NES6502 := machine [(0x8001, 0xFF), (0x8002, 0x01)] 0x8001 0 1 1 0x20

/-- The operand `F0` at `0x8001` with the zero-page word `0x00F0 = FF 01` and `Y = 1`. -/
def izyState : NES6502 :=
  machine [(0x8001, 0xF0), (0x00F0, 0xFF), (0x00F1, 0x01)] 0x8001 0 0 1 0x20

/-- The program `A9 42 8D 00 20` (LDA #$42; STA $2000) at `0x8000`, with `A = 0`. -/
def loadStoreState : NES6502 :=
  machine [(0x8000, 0xA9), (0x8001, 0x42), (0x8002, 0x8D), (0x8003, 0x00), (0x8004, 0x20)]
    0x8000 0 0 0 0x20

/-- A state about to run `RTI` with `S = 0xFA` over the stack bytes `20 34 12`, as `IRQ`
leaves them from `P = 0x20`, `PC = 0x1234`. -/
def rtiState : NES6502 :=
  { machine [(0x01FB, 0x20), (0x01FC, 0x34), (0x01FD, 0x12)] 0x9000 1 2 3 0x20 with
    stkp := 0xFA }

/-- A state about to run `PHA` with `S = 0` and `A = 0x42`. -/
def pushState : NES6502 := { machine [] 0x8001 0x42 0 0 0x20 with stkp := 0 }

/-- The RAM as `Bus::Bus` leaves it: every cell 0. -/
def zeroRam : Ram := fun _ => 0

/-- A machine whose reset vector points at `0x8000`, where an `RTI` (`0x40`) stands; the
stack page is all zero. -/
def rtiBoot : NES6502 := machine [(0xFFFC, 0x00), (0xFFFD, 0x80), (0x8000, 0x40)] 0 0 0 0 0

/-- A machine whose reset vector points at `0x8000`, where `NOP` (`0xEA`) bytes stand, with
the IRQ and NMI vectors at `0x9000` and `0xA000`. -/
def nopBoot : NES6502 :=
  machine [(0xFFFC, 0x00), (0xFFFD, 0x80), (0x8000, 0xEA), (0x8001, 0xEA), (0xFFFE, 0x00),
    (0xFFFF, 0x90), (0xFFFA, 0x00), (0xFFFB, 0xA0), (0x9000, 0xEA), (0xA000, 0xEA)] 0 0 0 0 0

/-- The operand `10 20` at `0x8001` with `X = 0x05` and `Y = 0x07`: `lo = 0x10`,
`hi = 0x20`, no page is crossed. -/
def noCrossState : NES6502 := machine [(0x8001, 0x10), (0x8002, 0x20)] 0x8001 0 5 7 0x20

/-- The operand `F0` at `0x8001` with the zero-page word `0x00F0 = 10 20` and `Y = 0x07`. -/
def izyNoCrossState : NES6502 :=
  machine [(0x8001, 0xF0), (0x00F0, 0x10), (0x00F1, 0x20)] 0x8001 0 0 7 0x20

/-! ## Arithmetic of bytes and words -/

/-- The shift `v >> 8` is division by 256. -/
theorem shr8 (v : Nat) : v >>> 8 = v / 256 := Nat.shiftRight_eq_div_pow v 8

/-- The shift `v << 8` is multiplication by 256. -/
theorem shl8 (v : Nat) : v <<< 8 = v * 256 := Nat.shiftLeft_eq v 8

/-- The byte `v & 0x00FF` of a word. -/
theorem lo_byte (v : Nat) : v &&& 0x00FF = v % 256 :=
  Nat.and_pow_two_sub_one_eq_mod _ 8

/-- Two bytes joined as `(hi << 8) | lo` fit a 16-bit word. -/
theorem word_lt (hi lo : Nat) (hh : hi < 256) (hl : lo < 256) :
    (hi <<< 8) ||| lo < 65536 := by
  have h1 : hi <<< 8 < 2 ^ 16 := by
    rw [Nat.shiftLeft_eq]; omega
  have h2 : lo < 2 ^ 16 := by omega
  exact Nat.or_lt_two_pow h1 h2

/-- The stack address `0x0100 | S` is `0x0100 + S` for a byte `S`. -/
theorem stack_or (S : Nat) (h : S < 256) : 0x0100 ||| S = 0x0100 + S := by
  have h8 : S < 2 ^ 8 := by omega
  have := @Nat.mul_add_lt_is_or 8 S h8 1
  simpa using this.symm

/-- The page part `v & 0xFF00` of a word. -/
theorem and_FF00 (v : Nat) : v &&& 0xFF00 = (v / 256 % 256) * 256 := by
  apply Nat.eq_of_testBit_eq
  intro i
  have h1 : (0xFF00 : Nat) = (2 ^ 8 - 1) <<< 8 := by decide
  have h2 : (v / 256 % 256) * 256 = ((v >>> 8) % 2 ^ 8) <<< 8 := by
    rw [Nat.shiftLeft_eq, Nat.shiftRight_eq_div_pow]; rfl
  rw [h1, h2]
  simp only [Nat.testBit_and, Nat.testBit_shiftLeft, Nat.testBit_two_pow_sub_one,
    Nat.testBit_mod_two_pow, Nat.testBit_shiftRight]
  by_cases h : i ≥ 8
  · have : 8 + (i - 8) = i := by omega
    simp [h, this, Bool.and_comm]
  · simp [h]

/-- The bit 7 test `v & 0x0080`, converted to `bool`. -/
theorem toBool_and_0080 (v : Nat) : toBool (v &&& 0x0080) = v.testBit 7 := by
  unfold toBool
  have h1 : (0x0080 : Nat) = 2 ^ 7 := by decide
  cases h : v.testBit 7
  · have : v &&& 0x0080 = 0 := by
      apply Nat.eq_of_testBit_eq
      intro i
      rw [h1, Nat.testBit_and, Nat.testBit_two_pow]
      by_cases hi : 7 = i
      · subst hi; simp [h]
      · simp [hi]
    simp [this]
  · have : (v &&& 0x0080).testBit 7 = true := by
      rw [h1, Nat.testBit_and, Nat.testBit_two_pow_self, h]; rfl
    have hne : v &&& 0x0080 ≠ 0 := by
      intro h0
      rw [h0] at this
      simp at this
    simp [hne]

/-- Bit 7 of `~v` is the complement of bit 7 of `v`. -/
theorem testBit7_cnot (v : Nat) : (cnot v).testBit 7 = !v.testBit 7 := by
  unfold cnot
  have h1 : (0xFFFFFFFF : Nat) = 2 ^ 32 - 1 := by decide
  rw [h1, Nat.testBit_xor, Nat.testBit_two_pow_sub_one]
  simp

/-! ## Facts about the bus -/

/-- Every read from the bus returns a byte. -/
theorem Bus.ReadRam_lt (ram : Ram) (addr : Nat) : Bus.ReadRam ram addr < 256 := by
  unfold Bus.ReadRam
  simp only []
  split
  · exact Nat.mod_lt _ (by decide)
  · decide

/-- A read after a write sees the written byte at the written address and the old
contents elsewhere. -/
theorem Bus.ReadRam_WriteRam (ram : Ram) (a v b : Nat) :
    Bus.ReadRam (Bus.WriteRam ram a v) b
      = if b % 65536 = a % 65536 then v % 256 else Bus.ReadRam ram b := by
  have hb : b % 65536 ≤ 65535 := by omega
  have ha : a % 65536 ≤ 65535 := by omega
  unfold Bus.ReadRam Bus.WriteRam
  simp only [Nat.zero_le, true_and, hb, ha, if_true]
  split <;> simp

/-- Every read through the CPU returns a byte. -/
theorem read_byte (s : NES6502) (addr : Nat) : s.ReadRam addr < 256 :=
  Bus.ReadRam_lt _ _

/-! ## The opcode table -/

set_option maxRecDepth 100000 in
/-- The table has one row per opcode byte. -/
theorem table_length : instructionSetLookup.length = 256 := by decide

set_option maxRecDepth 100000 in
/-- Every row has a base cycle count from 2 to 8. -/
theorem table_cycles : ∀ e ∈ instructionSetLookup, 2 ≤ e.cycles ∧ e.cycles ≤ 8 := by decide

/-- The base cycle count of every opcode byte is from 2 to 8. -/
theorem lookup_cycles (opcode : Nat) (h : opcode < 256) :
    2 ≤ (lookup opcode).cycles ∧ (lookup opcode).cycles ≤ 8 := by
  have hlen : opcode < instructionSetLookup.length := by rw [table_length]; exact h
  unfold lookup
  rw [List.getD_eq_getElem _ _ hlen]
  exact table_cycles _ (List.getElem_mem hlen)

/-! ## Frames of the handlers -/

/-- An addressing-mode handler leaves `cycles` and `opcode` alone and returns 0 or 1. -/
theorem runAddrMode_frame (m : ModeTag) (s : NES6502) :
    (runAddrMode m s).1.cycles = s.cycles ∧ (runAddrMode m s).1.opcode = s.opcode ∧
    (runAddrMode m s).2 ≤ 1 := by
  cases m <;>
    simp only [runAddrMode, IMP, IMM, ZP0, ZPX, ZPY, REL, ABS, ABX, ABY, IND, IZX, IZY] <;>
    (try split) <;> simp

/-- An instruction handler adds exactly the branch penalty to `cycles`. -/
theorem runInstruction_cycles (i : InstrTag) (s : NES6502) (h : s.cycles + 2 < 256) :
    (runInstruction i s).1.cycles = s.cycles + branchPenalty i s ∧
    (runInstruction i s).2 ≤ 1 := by
  cases i <;>
    simp only [runInstruction, NES6502.ADC, NES6502.AND, ASL, BCC, BCS, BEQ, BIT, BMI, BNE, BPL,
      BRK, BVC, BVS, CLC, CLD, CLI, CLV, CMP, CPX, CPY, DEC, DEX, DEY, EOR, INC, INX, INY, JMP,
      JSR, LDA, LDX, LDY, LSR, NOP, ORA, PHA, PHP, PLA, PLP, ROL, ROR, RTI, RTS, NES6502.SBC,
      SEC, SED, SEI, STA, STX, STY, TAX, TAY, TSX, TXA, TXS, TYA, XXX, FetchData, SetFlag,
      GetFlag, NES6502.WriteRam, branchPenalty, branchTaken] <;>
    simp only [Nat.zero_ne_one, if_true, if_false, decide_True, decide_False, Bool.false_eq_true,
      Nat.add_zero, Nat.le_refl, Nat.zero_le, and_self, ne_eq, ite_not] <;>
    (try split_ifs) <;> (try simp) <;> (try omega)

/-- The operand fetch changes nothing but `fetchedData`, and returns it. -/
theorem FetchData_frame (s : NES6502) :
    s.FetchData.1.a = s.a ∧ s.FetchData.1.status = s.status ∧
    s.FetchData.2 = s.FetchData.1.fetchedData := by
  unfold FetchData
  split_ifs <;> simp

/-! ## Clock -/

/-- One `Clock` call in the middle of an instruction. -/
theorem Clock_busy (s : NES6502) (h0 : 0 < s.cycles) (h1 : s.cycles < 256) :
    Clock s = { s with cycles := s.cycles - 1 } := by
  have hne : s.cycles ≠ 0 := by omega
  have hm : (s.cycles + 255) % 256 = s.cycles - 1 := by omega
  simp only [Clock, hne, if_false, hm]

/-- While an instruction is executing, `Clock` only counts down. -/
theorem Clock_countdown (t : NES6502) (c : Nat) (hc : c < 256) (k : Nat) (hk : k ≤ c) :
    Clock^[k] { t with cycles := c } = { t with cycles := c - k } := by
  induction k with
  | zero => rfl
  | succ j ih =>
    rw [Function.iterate_succ_apply', ih (by omega)]
    have hne : c - j ≠ 0 := by omega
    have hm : (c - j + 255) % 256 = c - (j + 1) := by omega
    simp only [Clock, hne, if_false, hm]

/-- One `Clock` call at an instruction boundary: the handlers of the opcode at `PC` run, and
`cycles` is left at base + extra + penalty - 1. -/
theorem Clock_boundary (s : NES6502) (h : s.cycles = 0) :
    Clock s =
      { (runInstruction (lookup (s.ReadRam s.pc)).instruction
          (runAddrMode (lookup (s.ReadRam s.pc)).addrMode
            { s with opcode := s.ReadRam s.pc, pc := (s.pc + 1) % 65536,
                     cycles := (lookup (s.ReadRam s.pc)).cycles }).1).1 with
        cycles := (lookup (s.ReadRam s.pc)).cycles +
          ((runAddrMode (lookup (s.ReadRam s.pc)).addrMode
            { s with opcode := s.ReadRam s.pc, pc := (s.pc + 1) % 65536,
                     cycles := (lookup (s.ReadRam s.pc)).cycles }).2 &&&
           (runInstruction (lookup (s.ReadRam s.pc)).instruction
            (runAddrMode (lookup (s.ReadRam s.pc)).addrMode
              { s with opcode := s.ReadRam s.pc, pc := (s.pc + 1) % 65536,
                       cycles := (lookup (s.ReadRam s.pc)).cycles }).1).2) +
          branchPenalty (lookup (s.ReadRam s.pc)).instruction
            (runAddrMode (lookup (s.ReadRam s.pc)).addrMode
              { s with opcode := s.ReadRam s.pc, pc := (s.pc + 1) % 65536,
                       cycles := (lookup (s.ReadRam s.pc)).cycles }).1 - 1 } := by
  have hb := lookup_cycles (s.ReadRam s.pc) (read_byte _ _)
  generalize hs1 : ({ s with
    opcode := s.ReadRam s.pc
    pc := (s.pc + 1) % 65536
    cycles := (lookup (s.ReadRam s.pc)).cycles } : NES6502) = s1
  have hA := runAddrMode_frame (lookup (s.ReadRam s.pc)).addrMode s1
  have hs1c : s1.cycles = (lookup (s.ReadRam s.pc)).cycles := by rw [← hs1]
  have hs1o : s1.opcode = s.ReadRam s.pc := by rw [← hs1]
  have hB := runInstruction_cycles (lookup (s.ReadRam s.pc)).instruction
    (runAddrMode (lookup (s.ReadRam s.pc)).addrMode s1).1 (by rw [hA.1, hs1c]; omega)
  have hand := @Nat.and_le_left (runAddrMode (lookup (s.ReadRam s.pc)).addrMode s1).2
    (runInstruction (lookup (s.ReadRam s.pc)).instruction
      (runAddrMode (lookup (s.ReadRam s.pc)).addrMode s1).1).2
  have hpen : branchPenalty (lookup (s.ReadRam s.pc)).instruction
      (runAddrMode (lookup (s.ReadRam s.pc)).addrMode s1).1 ≤ 2 := by
    unfold branchPenalty
    split_ifs <;> omega
  unfold Clock
  rw [if_pos h]
  simp only [hs1, hs1o, hA.2.1, hB.1, hA.1, hs1c]
  congr 1
  omega

/-- Claim C1. From an instruction boundary (`cycles = 0`), with `entry` the table row of the
opcode byte at `PC`, let `n` be `entry.cycles`, plus the bitwise AND of what the
addressing-mode handler and the instruction handler return, plus the branch penalty.  Then
`cycles` is 0 again after exactly `n` calls of `Clock` and not before; every state on the
way is the state after the first call with only `cycles` counted down; and each call after
the first gives the same registers whatever memory holds, and leaves memory as it is. -/
theorem Clock_instruction_ticks (s : NES6502) (h : s.cycles = 0) :
    let entry := lookup (s.ReadRam s.pc)
    let r1 := runAddrMode entry.addrMode
      { s with opcode := s.ReadRam s.pc, pc := (s.pc + 1) % 65536, cycles := entry.cycles }
    let r2 := runInstruction entry.instruction r1.1
    let n := entry.cycles + (r1.2 &&& r2.2) + branchPenalty entry.instruction r1.1
    (Clock^[n] s).cycles = 0 ∧
    (∀ k, 1 ≤ k → k < n → (Clock^[k] s).cycles ≠ 0) ∧
    (∀ k, 1 ≤ k → k ≤ n → Clock^[k] s = { Clock s with cycles := n - k }) ∧
    (∀ k, 1 ≤ k → k < n → ∀ ram,
      Clock { Clock^[k] s with bus := ram }
        = { Clock^[k] s with bus := ram, cycles := n - k - 1 }) := by
  intro entry r1 r2 n
  have hb : 2 ≤ entry.cycles ∧ entry.cycles ≤ 8 := lookup_cycles (s.ReadRam s.pc) (read_byte _ _)
  have hand : r1.2 &&& r2.2 ≤ r1.2 := Nat.and_le_left
  have hr1 : r1.2 ≤ 1 := (runAddrMode_frame _ _).2.2
  have hpen : branchPenalty entry.instruction r1.1 ≤ 2 := by
    unfold branchPenalty
    split_ifs <;> omega
  have hn : 2 ≤ n ∧ n ≤ 11 := by
    show 2 ≤ entry.cycles + (r1.2 &&& r2.2) + branchPenalty entry.instruction r1.1 ∧
      entry.cycles + (r1.2 &&& r2.2) + branchPenalty entry.instruction r1.1 ≤ 11
    omega
  have hfirst : Clock s = { r2.1 with cycles := n - 1 } := Clock_boundary s h
  have hiter : ∀ k, 1 ≤ k → k ≤ n → Clock^[k] s = { r2.1 with cycles := n - k } := by
    intro k hk1 hkn
    obtain ⟨j, rfl⟩ : ∃ j, k = j + 1 := ⟨k - 1, by omega⟩
    rw [Function.iterate_succ_apply, hfirst, Clock_countdown r2.1 (n - 1) (by omega) j (by omega)]
    have : n - 1 - j = n - (j + 1) := by omega
    rw [this]
  refine ⟨?_, ?_, ?_, ?_⟩
  · rw [hiter n (by omega) (le_refl _)]
    show n - n = 0
    omega
  · intro k hk1 hkn
    rw [hiter k hk1 (by omega)]
    show n - k ≠ 0
    omega
  · intro k hk1 hkn
    rw [hiter k hk1 hkn, hfirst]
  · intro k hk1 hkn ram
    rw [hiter k hk1 (by omega)]
    rw [Clock_busy _ (by show 0 < n - k; omega) (by show n - k < 256; omega)]

/-- Witness for C1: `90 20` at `0x80F0` (a branch this code takes, across a page) is back at
a boundary after 2 + 0 + 2 = 4 ticks and not after 3. -/
theorem Clock_instruction_ticks_witness :
    branchState.cycles = 0 ∧ (Clock^[4] branchState).cycles = 0 ∧
    (Clock^[3] branchState).cycles ≠ 0 :=
  ⟨rfl, (Clock_instruction_ticks branchState rfl).1,
    (Clock_instruction_ticks branchState rfl).2.1 3 (by decide) (by decide)⟩

/-- Claim C2. In the middle of an instruction (`cycles > 0`), `Clock` decrements `cycles` by
exactly one and changes no other register, no scratch field and no byte of memory. -/
theorem Clock_executing_frame (s : NES6502) (h0 : 0 < s.cycles) (h1 : s.cycles < 256) :
    Clock s = { s with cycles := s.cycles - 1 } :=
  Clock_busy s h0 h1

/-- Witness for C2: a state three ticks before the boundary. -/
theorem Clock_executing_frame_witness :
    0 < busyState.cycles ∧ busyState.cycles < 256 ∧
    Clock busyState = { busyState with cycles := busyState.cycles - 1 } :=
  ⟨by decide, by decide, Clock_executing_frame busyState (by decide) (by decide)⟩

/-! ## Reset -/

/-- Claim C3. After `Reset`, whatever the state and memory before: `A = X = Y = 0`,
`S = 0xFD`, `P = 0x20`, `PC` is the little-endian word at `0xFFFC`, the three scratch fields
are 0, `cycles = 8`, and memory is unchanged. -/
theorem Reset_postcondition (s : NES6502) :
    (Reset s).a = 0 ∧ (Reset s).x = 0 ∧ (Reset s).y = 0 ∧ (Reset s).stkp = 0xFD ∧
    (Reset s).status = 0x20 ∧
    (Reset s).pc = s.ReadRam 0xFFFC ||| (s.ReadRam 0xFFFD <<< 8) ∧
    (Reset s).addr_abs = 0 ∧ (Reset s).addr_rel = 0 ∧ (Reset s).fetchedData = 0 ∧
    (Reset s).cycles = 8 ∧ (Reset s).bus = s.bus := by
  have hw := word_lt (s.ReadRam 0xFFFD) (s.ReadRam 0xFFFC) (read_byte _ _) (read_byte _ _)
  refine ⟨rfl, rfl, rfl, rfl, ?_, ?_, rfl, rfl, rfl, rfl, rfl⟩
  · show (0 ||| FLAGS.U.mask) % 256 = 0x20
    decide
  · show ((s.ReadRam (0xFFFC + 1) <<< 8) ||| s.ReadRam 0xFFFC) % 65536 = _
    rw [Nat.mod_eq_of_lt hw, Nat.lor_comm]

/-! ## IRQ and NMI -/

/-- Claim C4. With `P.I = 0` and any stack pointer `S`, `IRQ` leaves the high byte of `PC`
at `0x0100 | S`, the low byte at `0x0100 | ((S - 1) mod 256)`, sets `S` to `(S - 3) mod 256`,
loads `PC` from the little-endian word at `0xFFFE` and sets `cycles` to 7.  Here
`(S + 255) % 256` is `(S - 1) mod 256`. -/
theorem IRQ_serviced (s : NES6502) (_hI : s.status &&& FLAGS.I.mask = 0) (hS : s.stkp < 256) :
    (IRQ s).ReadRam (0x0100 ||| s.stkp) = s.pc / 256 % 256 ∧
    (IRQ s).ReadRam (0x0100 ||| ((s.stkp + 255) % 256)) = s.pc % 256 ∧
    ((IRQ s).stkp : ℤ) = ((s.stkp : ℤ) - 3) % 256 ∧
    (IRQ s).pc = s.ReadRam 0xFFFE ||| (s.ReadRam 0xFFFF <<< 8) ∧
    (IRQ s).cycles = 7 := by
  have hw := word_lt (s.ReadRam 0xFFFF) (s.ReadRam 0xFFFE) (read_byte _ _) (read_byte _ _)
  rw [stack_or _ hS, stack_or _ (Nat.mod_lt _ (by decide))]
  unfold IRQ
  rw [if_pos (by rfl)]
  simp only [SetFlag, NES6502.ReadRam, NES6502.WriteRam, Bus.ReadRam_WriteRam, shr8,
    lo_byte] at hw ⊢
  refine ⟨?_, ?_, ?_, ?_, ?_⟩
  · split_ifs <;> omega
  · split_ifs <;> omega
  · omega
  · rw [if_neg (by omega), if_neg (by omega), if_neg (by omega),
      if_neg (by omega), if_neg (by omega), if_neg (by omega)]
    rw [Nat.mod_eq_of_lt hw, Nat.lor_comm]
  · trivial

/-- Witness for C4: `S = 0xFD`, `PC = 0x1234`, vector `0x9000`. -/
theorem IRQ_serviced_witness :
    (irqState 0x20).status &&& FLAGS.I.mask = 0 ∧ (irqState 0x20).stkp < 256 ∧
    (IRQ (irqState 0x20)).ReadRam 0x01FD = 0x12 ∧
    (IRQ (irqState 0x20)).ReadRam 0x01FC = 0x34 ∧
    ((IRQ (irqState 0x20)).stkp : ℤ) = 0xFA ∧
    (IRQ (irqState 0x20)).pc = 0x9000 ∧
    (IRQ (irqState 0x20)).cycles = 7 :=
  ⟨by decide, by decide, IRQ_serviced (irqState 0x20) (by decide) (by decide)⟩

/-- Claim C5, evaluated where it fails. With the I bit set (`P = 0x04`), `IRQ` is not a
no-op: it vectors to `0x9000`, moves `S` from `0xFD` to `0xFA`, sets `cycles` to 7 and
writes `PC` to the stack. -/
theorem IRQ_serviced_with_I_set :
    (irqState 0x04).status &&& FLAGS.I.mask ≠ 0 ∧
    (IRQ (irqState 0x04)).pc = 0x9000 ∧ (irqState 0x04).pc = 0x1234 ∧
    (IRQ (irqState 0x04)).stkp = 0xFA ∧ (irqState 0x04).stkp = 0xFD ∧
    (IRQ (irqState 0x04)).cycles = 7 ∧ (irqState 0x04).cycles = 0 ∧
    (IRQ (irqState 0x04)).ReadRam 0x01FD = 0x12 ∧ (irqState 0x04).ReadRam 0x01FD = 0 := by
  decide

/-- Claim C6, evaluated where it fails. From `P = 0x00` a serviced `IRQ` and an `NMI` leave
`P = 0x00`, so neither I nor U is set, and the status byte pushed at `0x01FB` is `0x00`,
with bit 5 clear; from `P = 0x20`, the value `Reset` leaves, I is still clear. -/
theorem interrupt_status_not_updated :
    (IRQ (irqState 0x00)).pc = 0x9000 ∧
    (IRQ (irqState 0x00)).status = 0x00 ∧ (IRQ (irqState 0x00)).ReadRam 0x01FB = 0x00 ∧
    (NMI (irqState 0x00)).pc = 0xA000 ∧
    (NMI (irqState 0x00)).status = 0x00 ∧ (NMI (irqState 0x00)).ReadRam 0x01FB = 0x00 ∧
    (IRQ (irqState 0x20)).status &&& FLAGS.I.mask = 0 ∧
    (NMI (irqState 0x20)).status &&& FLAGS.I.mask = 0 := by
  decide

/-- Claim C7. Whatever the I flag, `NMI` leaves the high byte of `PC` at `0x0100 | S`, the
low byte at `0x0100 | ((S - 1) mod 256)` and the status register at
`0x0100 | ((S - 2) mod 256)`, sets `S` to `(S - 3) mod 256`, loads `PC` from the
little-endian word at `0xFFFA` and sets `cycles` to 8. -/
theorem NMI_pushes_and_vectors (s : NES6502) (hS : s.stkp < 256) (hP : s.status < 256) :
    (NMI s).ReadRam (0x0100 ||| s.stkp) = s.pc / 256 % 256 ∧
    (NMI s).ReadRam (0x0100 ||| ((s.stkp + 255) % 256)) = s.pc % 256 ∧
    (NMI s).ReadRam (0x0100 ||| ((s.stkp + 254) % 256)) = (NMI s).status ∧
    ((NMI s).stkp : ℤ) = ((s.stkp : ℤ) - 3) % 256 ∧
    (NMI s).pc = s.ReadRam 0xFFFA ||| (s.ReadRam 0xFFFB <<< 8) ∧
    (NMI s).cycles = 8 := by
  have hw := word_lt (s.ReadRam 0xFFFB) (s.ReadRam 0xFFFA) (read_byte _ _) (read_byte _ _)
  rw [stack_or _ hS, stack_or _ (Nat.mod_lt _ (by decide)),
    stack_or _ (Nat.mod_lt _ (by decide))]
  unfold NMI
  simp only [SetFlag, NES6502.ReadRam, NES6502.WriteRam, Bus.ReadRam_WriteRam, shr8,
    lo_byte] at hw ⊢
  refine ⟨?_, ?_, ?_, ?_, ?_, ?_⟩
  · split_ifs <;> omega
  · split_ifs <;> omega
  · split_ifs <;> omega
  · omega
  · rw [if_neg (by omega), if_neg (by omega), if_neg (by omega),
      if_neg (by omega), if_neg (by omega), if_neg (by omega)]
    rw [Nat.mod_eq_of_lt hw, Nat.lor_comm]
  · trivial

/-- Witness for C7: `S = 0xFD`, `PC = 0x1234`, `P = 0x24` (I set), vector `0xA000`. -/
theorem NMI_pushes_and_vectors_witness :
    (irqState 0x24).stkp < 256 ∧ (irqState 0x24).status < 256 ∧
    (NMI (irqState 0x24)).ReadRam 0x01FD = 0x12 ∧
    (NMI (irqState 0x24)).ReadRam 0x01FC = 0x34 ∧
    (NMI (irqState 0x24)).ReadRam 0x01FB = 0x24 ∧
    ((NMI (irqState 0x24)).stkp : ℤ) = 0xFA ∧
    (NMI (irqState 0x24)).pc = 0xA000 ∧
    (NMI (irqState 0x24)).cycles = 8 :=
  ⟨by decide, by decide, NMI_pushes_and_vectors (irqState 0x24) (by decide) (by decide)⟩

/-! ## ADC and SBC -/

/-- Claim C8, evaluated where it fails. With `A = 0x50`, operand `0x50` and the carry bit of
`P` set, `ADC #$50` leaves `A = 0xA0`, while `(A + m + C) mod 256` is `0xA1`. -/
theorem ADC_drops_carry_in :
    (aluState 0x69 0x50 0x21).a = 0x50 ∧
    (aluState 0x69 0x50 0x21).status &&& FLAGS.C.mask = 1 ∧
    (Clock (aluState 0x69 0x50 0x21)).opcode = 0x69 ∧
    (Clock (aluState 0x69 0x50 0x21)).fetchedData = 0x50 ∧
    (Clock (aluState 0x69 0x50 0x21)).a = 0xA0 ∧
    (0x50 + 0x50 + 1) % 256 = 0xA1 := by
  decide

/-- Claim C9, evaluated where it fails. With `A = 0x50`, `C = 0` and `P = 0x20`,
`ADC #$50` gives `A = 0xA0` and leaves `P = 0x20`: N (bit 7) and V (bit 6) stay clear,
where the claim has `N = 1` and `V = 1`. -/
theorem ADC_status_not_updated :
    (Clock (aluState 0x69 0x50 0x20)).opcode = 0x69 ∧
    (Clock (aluState 0x69 0x50 0x20)).a = 0xA0 ∧
    (Clock (aluState 0x69 0x50 0x20)).status = 0x20 ∧
    (Clock (aluState 0x69 0x50 0x20)).status &&& FLAGS.N.mask = 0 ∧
    (Clock (aluState 0x69 0x50 0x20)).status &&& FLAGS.V.mask = 0 := by
  decide

/-- The overflow arguments of `SBC` and `ADC` agree on every input. -/
theorem argV_agree (a inv t : Nat) : SBC_argV a inv t = ADC_argV a inv t := by
  unfold SBC_argV ADC_argV
  rw [toBool_and_0080, toBool_and_0080]
  simp only [Nat.testBit_and, Nat.testBit_xor, testBit7_cnot]
  cases a.testBit 7 <;> cases inv.testBit 7 <;> cases t.testBit 7 <;> rfl

/-- The carry arguments of `SBC` and `ADC` agree on every 16-bit `temp`. -/
theorem argC_agree (t : Nat) (h : t < 65536) : SBC_argC t = ADC_argC t := by
  unfold SBC_argC ADC_argC toBool
  rw [and_FF00]
  by_cases ht : t > 0xFF
  · have : t / 256 % 256 * 256 ≠ 0 := by omega
    simp [this, ht]
  · have : t / 256 % 256 * 256 = 0 := by omega
    simp [this, ht]

/-- Claim C10. Let `s` and `t` have the same accumulator and status register, let `SBC`
fetch the operand byte `m` in `s` and `ADC` fetch `m XOR 0xFF` in `t`.  Then `SBC` in `s`
and `ADC` in `t` leave the same accumulator and the same status register and return the
same value; and for every accumulator `a`, inverted operand `inv` and carry-in `c`, with
`temp = a + inv + c` in 16 bits, the four values `SBC` passes to `SetFlag` for C, Z, N and
V equal the four that `ADC` passes. -/
theorem SBC_eq_ADC_inverted (s t : NES6502) (ha : t.a = s.a) (hst : t.status = s.status)
    (hb : s.FetchData.2 < 256) (hm : t.FetchData.2 = s.FetchData.2 ^^^ 0x00FF) :
    (SBC s).1.a = (ADC t).1.a ∧ (SBC s).1.status = (ADC t).1.status ∧
    (SBC s).2 = (ADC t).2 ∧
    ∀ a inv c : Nat,
      SBC_argC ((a + inv + c) % 65536) = ADC_argC ((a + inv + c) % 65536) ∧
      SBC_argZ ((a + inv + c) % 65536) = ADC_argZ ((a + inv + c) % 65536) ∧
      SBC_argN ((a + inv + c) % 65536) = ADC_argN ((a + inv + c) % 65536) ∧
      SBC_argV a inv ((a + inv + c) % 65536) = ADC_argV a inv ((a + inv + c) % 65536) := by
  obtain ⟨hsa, hss, hsf⟩ := FetchData_frame s
  obtain ⟨hta, hts, htf⟩ := FetchData_frame t
  rw [hsf] at hb hm
  rw [htf] at hm
  have hinv : (s.FetchData.1.fetchedData ^^^ 0x00FF) % 65536
      = s.FetchData.1.fetchedData ^^^ 0x00FF := by
    apply Nat.mod_eq_of_lt
    have h1 : s.FetchData.1.fetchedData < 2 ^ 16 := by omega
    have h2 : (0x00FF : Nat) < 2 ^ 16 := by decide
    exact Nat.xor_lt_two_pow h1 h2
  refine ⟨?_, ?_, rfl, ?_⟩
  · simp only [SBC, ADC, SetFlag, GetFlag, hinv, hm, hsa, hta, ha]
  · simp only [SBC, ADC, SetFlag, hss, hts, hst]
  · intro a inv c
    exact ⟨argC_agree _ (Nat.mod_lt _ (by decide)), rfl, rfl, argV_agree _ _ _⟩

/-- Witness for C10: `SBC #$30` against `ADC #$CF`, both from `A = 0x50`. -/
theorem SBC_eq_ADC_inverted_witness :
    adcOperandState.a = sbcOperandState.a ∧
    adcOperandState.status = sbcOperandState.status ∧
    sbcOperandState.FetchData.2 < 256 ∧
    adcOperandState.FetchData.2 = sbcOperandState.FetchData.2 ^^^ 0x00FF ∧
    (SBC sbcOperandState).1.a = (ADC adcOperandState).1.a ∧
    (SBC sbcOperandState).1.a = 0x1F :=
  ⟨rfl, rfl, by decide, by decide,
    (SBC_eq_ADC_inverted sbcOperandState adcOperandState rfl rfl (by decide) (by decide)).1,
    by decide⟩

/-! ## Opcode 0xEB -/

/-- Claim C11, evaluated where it fails. From `A = 0x50`, `PC = 0x8000`, the bytes `EB 30`
leave `PC = 0x8001` and `A = 0xFF` with the operand taken from the accumulator, while
`E9 30` leaves `PC = 0x8002` and `A = 0x1F`; the table row of `0xEB` has mode `IMP`. -/
theorem opcode_EB_not_SBC_immediate :
    (lookup 0xEB).instruction = InstrTag.SBC ∧ (lookup 0xEB).addrMode = ModeTag.IMP ∧
    (lookup 0xE9).instruction = InstrTag.SBC ∧ (lookup 0xE9).addrMode = ModeTag.IMM ∧
    (Clock (aluState 0xEB 0x30 0x20)).pc = 0x8001 ∧
    (Clock (aluState 0xEB 0x30 0x20)).fetchedData = 0x50 ∧
    (Clock (aluState 0xEB 0x30 0x20)).a = 0xFF ∧
    (Clock (aluState 0xE9 0x30 0x20)).pc = 0x8002 ∧
    (Clock (aluState 0xE9 0x30 0x20)).fetchedData = 0x30 ∧
    (Clock (aluState 0xE9 0x30 0x20)).a = 0x1F := by
  decide

/-! ## Branches -/

/-- Claim C13, evaluated where it fails. `F0 20` (BEQ +32) at `0x80F0` with `Z = 1` leaves
`PC = 0x80F2` and is over after 2 ticks, where the claim has `PC = 0x8112` and 4 ticks. -/
theorem BEQ_not_taken_with_Z_set :
    beqState.status &&& FLAGS.Z.mask ≠ 0 ∧
    (Clock beqState).opcode = 0xF0 ∧ (Clock beqState).pc = 0x80F2 ∧
    (Clock beqState).cycles = 1 ∧ (Clock^[2] beqState).cycles = 0 ∧
    (Clock^[2] beqState).pc = 0x80F2 := by
  decide

/-- Claim C14, evaluated where it fails. `90 20` (BCC +32) at `0x80F0` with `C = 1` leaves
`PC = 0x8112` and takes 4 ticks, where the claim has `PC = 0x80F2` and 2 ticks. -/
theorem BCC_taken_with_C_set :
    bccState.status &&& FLAGS.C.mask ≠ 0 ∧
    (Clock bccState).opcode = 0x90 ∧ (Clock bccState).pc = 0x8112 ∧
    (Clock^[2] bccState).cycles ≠ 0 ∧ (Clock^[3] bccState).cycles ≠ 0 ∧
    (Clock^[4] bccState).cycles = 0 := by
  decide

/-! ## Indirect and indexed addressing -/

/-- Claim C15, evaluated where it fails. With the pointer `0x30FF` the handler reads the high
byte at `0x3100` and gives `0x4080`, not `0x5080`; with the pointer `0x3000` it reads the
high byte at `0x3000` again and gives `0x5050`, not `0x4050`. -/
theorem IND_wrap_condition_inverted :
    (IND indWrapState).1.pc = 0x8003 ∧ (IND indWrapState).1.addr_abs = 0x4080 ∧
    (IND indPlainState).1.pc = 0x8003 ∧ (IND indPlainState).1.addr_abs = 0x5050 := by
  decide

/-- Claim C16, evaluated where it fails. With `lo = 0xFF`, `hi = 0x01` and index 1 the
three indexed modes give `addr_abs = 0x0100`, where `((hi << 8) | lo) + index` is `0x0200`. -/
theorem indexed_modes_drop_carry :
    (ABX indexedState).1.addr_abs = 0x0100 ∧ (ABY indexedState).1.addr_abs = 0x0100 ∧
    (IZY izyState).1.addr_abs = 0x0100 ∧
    (((0x01 <<< 8) ||| 0xFF) + 1) % 65536 = 0x0200 := by
  decide

/-! ## Load and store -/

/-- Claim C20, evaluated where it fails. From `A = 0`, six ticks over `A9 42 8D 00 20` end
at the boundary after the `STA` with `PC = 0x8005`, but `A` is still 0 and the byte at
`0x2000` is still 0. -/
theorem LDA_STA_have_no_effect :
    (Clock^[6] loadStoreState).pc = 0x8005 ∧ (Clock^[6] loadStoreState).cycles = 0 ∧
    (Clock^[2] loadStoreState).opcode = 0xA9 ∧ (Clock^[6] loadStoreState).opcode = 0x8D ∧
    (Clock^[6] loadStoreState).addr_abs = 0x2000 ∧
    (Clock^[6] loadStoreState).a = 0 ∧ (Clock^[6] loadStoreState).ReadRam 0x2000 = 0 := by
  decide

/-! ## NOP and the unofficial opcodes -/

set_option maxRecDepth 100000 in
/-- Every row that dispatches to `NOP` or `XXX` has the implied addressing mode. -/
theorem table_NOP_XXX_mode :
    ∀ e ∈ instructionSetLookup,
      e.instruction = InstrTag.NOP ∨ e.instruction = InstrTag.XXX → e.addrMode = ModeTag.IMP := by
  decide

/-- The row of an opcode byte is a row of the table. -/
theorem lookup_mem (opcode : Nat) (h : opcode < 256) : lookup opcode ∈ instructionSetLookup := by
  have hlen : opcode < instructionSetLookup.length := by rw [table_length]; exact h
  unfold lookup
  rw [List.getD_eq_getElem _ _ hlen]
  exact List.getElem_mem hlen

/-- One `Clock` call at a boundary in front of an opcode that dispatches to `NOP` or `XXX`. -/
theorem Clock_NOP_XXX (s : NES6502) (h : s.cycles = 0)
    (hop : (lookup (s.ReadRam s.pc)).instruction = InstrTag.NOP ∨
      (lookup (s.ReadRam s.pc)).instruction = InstrTag.XXX) :
    Clock s = { s with opcode := s.ReadRam s.pc, pc := (s.pc + 1) % 65536, fetchedData := s.a,
                       cycles := (lookup (s.ReadRam s.pc)).cycles - 1 } := by
  have hb := lookup_cycles (s.ReadRam s.pc) (read_byte _ _)
  have hmode := table_NOP_XXX_mode _ (lookup_mem (s.ReadRam s.pc) (read_byte _ _)) hop
  have hm : ((lookup (s.ReadRam s.pc)).cycles + 0) % 256 + 255
      = (lookup (s.ReadRam s.pc)).cycles - 1 + 256 := by omega
  unfold Clock
  rw [if_pos h]
  rcases hop with hop | hop <;>
    simp only [hmode, hop, runAddrMode, runInstruction, IMP, NOP, XXX, Nat.and_self,
      Nat.zero_and, hm, Nat.add_mod_right] <;>
    congr 1 <;> omega

/-- Claim C12. At an instruction boundary in front of an opcode whose table row dispatches
to `NOP` or `XXX`, the first `Clock` call leaves `A`, `X`, `Y`, `S`, the status register and
memory unchanged and advances `PC` by 1 (in 16 bits); `cycles` is 0 again after exactly the
tabulated number of calls and not before, and no call on the way changes anything but
`cycles`. -/
theorem NOP_XXX_no_effect (s : NES6502) (h : s.cycles = 0)
    (hop : (lookup (s.ReadRam s.pc)).instruction = InstrTag.NOP ∨
      (lookup (s.ReadRam s.pc)).instruction = InstrTag.XXX) :
    (Clock s).a = s.a ∧ (Clock s).x = s.x ∧ (Clock s).y = s.y ∧ (Clock s).stkp = s.stkp ∧
    (Clock s).status = s.status ∧ (Clock s).bus = s.bus ∧
    (Clock s).pc = (s.pc + 1) % 65536 ∧
    (Clock^[(lookup (s.ReadRam s.pc)).cycles] s).cycles = 0 ∧
    (∀ k, 1 ≤ k → k < (lookup (s.ReadRam s.pc)).cycles → (Clock^[k] s).cycles ≠ 0) ∧
    (∀ k, 1 ≤ k → k ≤ (lookup (s.ReadRam s.pc)).cycles →
      Clock^[k] s = { Clock s with cycles := (lookup (s.ReadRam s.pc)).cycles - k }) := by
  have hb := lookup_cycles (s.ReadRam s.pc) (read_byte _ _)
  have hfirst := Clock_NOP_XXX s h hop
  generalize (lookup (s.ReadRam s.pc)).cycles = n at hb hfirst ⊢
  have hiter : ∀ k, 1 ≤ k → k ≤ n → Clock^[k] s = { Clock s with cycles := n - k } := by
    intro k hk1 hkn
    obtain ⟨j, rfl⟩ : ∃ j, k = j + 1 := ⟨k - 1, by omega⟩
    have hcs : Clock s = { Clock s with cycles := n - 1 } := by rw [hfirst]
    have e1 : Clock^[j + 1] s = Clock^[j] (Clock s) := Function.iterate_succ_apply _ _ _
    have e2 : Clock^[j] (Clock s) = Clock^[j] { Clock s with cycles := n - 1 } :=
      congrArg _ hcs
    have e3 := Clock_countdown (Clock s) (n - 1) (by omega) j (by omega)
    have e4 : n - 1 - j = n - (j + 1) := by omega
    rw [e1, e2, e3, e4]
  refine ⟨?_, ?_, ?_, ?_, ?_, ?_, ?_, ?_, ?_, hiter⟩
  · rw [hfirst]
  · rw [hfirst]
  · rw [hfirst]
  · rw [hfirst]
  · rw [hfirst]
  · rw [hfirst]
  · rw [hfirst]
  · rw [hiter n (by omega) (le_refl _)]
    show n - n = 0
    omega
  · intro k hk1 hkn
    rw [hiter k hk1 (by omega)]
    show n - k ≠ 0
    omega

/-- Witness for C12: the unofficial opcode `0x03` (8 cycles) at `0x8000`. -/
theorem NOP_XXX_no_effect_witness :
    (aluState 0x03 0x30 0x20).cycles = 0 ∧
    (lookup ((aluState 0x03 0x30 0x20).ReadRam (aluState 0x03 0x30 0x20).pc)).instruction
      = InstrTag.XXX ∧
    (Clock (aluState 0x03 0x30 0x20)).a = 0x50 ∧
    (Clock (aluState 0x03 0x30 0x20)).pc = 0x8001 ∧
    (Clock^[8] (aluState 0x03 0x30 0x20)).cycles = 0 :=
  ⟨rfl, by decide,
    (NOP_XXX_no_effect (aluState 0x03 0x30 0x20) rfl (Or.inr (by decide))).1,
    (NOP_XXX_no_effect (aluState 0x03 0x30 0x20) rfl (Or.inr (by decide))).2.2.2.2.2.2.1,
    (NOP_XXX_no_effect (aluState 0x03 0x30 0x20) rfl (Or.inr (by decide))).2.2.2.2.2.2.2.1⟩

/-! ## The stack: PHA, PLA, RTI -/

/-- Claim C17. For every accumulator byte and every stack pointer byte, wrap-around at
`S = 0` included, `PHA` followed by `PLA` leaves `A` and `S` as they were before the `PHA`. -/
theorem PHA_PLA_roundtrip (s : NES6502) (ha : s.a < 256) (hS : s.stkp < 256) :
    (PLA (PHA s).1).1.a = s.a ∧ (PLA (PHA s).1).1.stkp = s.stkp := by
  unfold PLA PHA
  simp only [SetFlag, NES6502.ReadRam, NES6502.WriteRam, Bus.ReadRam_WriteRam]
  refine ⟨?_, ?_⟩
  · split_ifs <;> omega
  · omega

/-- Witness for C17: `A = 0x42` pushed at `S = 0`, where the pointer wraps to `0xFF`. -/
theorem PHA_PLA_roundtrip_witness :
    pushState.a < 256 ∧ pushState.stkp < 256 ∧ (PHA pushState).1.stkp = 0xFF ∧
    (PLA (PHA pushState).1).1.a = pushState.a ∧
    (PLA (PHA pushState).1).1.stkp = pushState.stkp :=
  ⟨by decide, by decide, by decide, PHA_PLA_roundtrip pushState (by decide) (by decide)⟩

set_option maxRecDepth 100000 in
/-- Clearing B and then U in a byte, as `RTI` does, keeps the bits of the mask `0xCF`. -/
theorem clear_B_U : ∀ b, b < 256 →
    ((b &&& cnot FLAGS.B.mask) % 256 &&& cnot FLAGS.U.mask) % 256 = b &&& 0xCF := by
  decide

/-- Counterexample for C18. With the byte `0x20` on top of the stack, `RTI` leaves
`P = 0x00`, while that byte with only bit 4 cleared is `0x20`. -/
theorem RTI_status_counterexample :
    rtiState.ReadRam (0x0100 ||| ((rtiState.stkp + 1) % 256)) = 0x20 ∧
    (RTI rtiState).1.status = 0x00 ∧
    (RTI rtiState).1.status
      ≠ rtiState.ReadRam (0x0100 ||| ((rtiState.stkp + 1) % 256)) &&& 0xEF := by
  decide

/-- Claim C18, amended. For every `S` and memory, `RTI` sets the status register to the byte
at `0x0100 | ((S + 1) mod 256)` with bits 4 (B) and 5 (U) cleared, sets `PC` to the
little-endian word at `0x0100 | ((S + 2) mod 256)` and `0x0100 | ((S + 3) mod 256)`, sets
`S` to `(S + 3) mod 256`, and leaves `A`, `X`, `Y` and memory unchanged. -/
theorem RTI_restores (s : NES6502) :
    (RTI s).1.status = s.ReadRam (0x0100 ||| ((s.stkp + 1) % 256)) &&& 0xCF ∧
    (RTI s).1.pc = s.ReadRam (0x0100 ||| ((s.stkp + 2) % 256)) |||
      (s.ReadRam (0x0100 ||| ((s.stkp + 3) % 256)) <<< 8) ∧
    (RTI s).1.stkp = (s.stkp + 3) % 256 ∧
    (RTI s).1.a = s.a ∧ (RTI s).1.x = s.x ∧ (RTI s).1.y = s.y ∧ (RTI s).1.bus = s.bus := by
  have h1 : ((s.stkp + 1) % 256 + 1) % 256 = (s.stkp + 2) % 256 := by omega
  have h2 : ((s.stkp + 2) % 256 + 1) % 256 = (s.stkp + 3) % 256 := by omega
  have hlo := read_byte s (0x0100 + (s.stkp + 2) % 256)
  have hhi := read_byte s (0x0100 + (s.stkp + 3) % 256)
  have hw := word_lt _ _ hhi hlo
  rw [stack_or _ (Nat.mod_lt _ (by decide)), stack_or _ (Nat.mod_lt _ (by decide)),
    stack_or _ (Nat.mod_lt _ (by decide))]
  unfold RTI
  simp only [h1, h2, NES6502.ReadRam] at hlo hhi hw ⊢
  refine ⟨?_, ?_, ?_⟩
  · exact clear_B_U _ (Bus.ReadRam_lt _ _)
  · rw [Nat.mod_eq_of_lt (Nat.lt_trans hlo (by decide)),
      Nat.mod_eq_of_lt (Nat.lt_trans hhi (by decide)), Nat.lor_comm, Nat.mod_eq_of_lt hw]
  · trivial

/-! ## The bus -/

/-- Claim C19. For every 16-bit address `a` and byte `v`, a read at `a` after a write of `v`
at `a` returns `v`; the write leaves every other cell, and so every other read, unchanged;
and for each of the 65536 addresses a read returns the cell, not the out-of-range 0. -/
theorem Bus_write_then_read (ram : Ram) (a v : Nat) (ha : a < 65536) (hv : v < 256) :
    Bus.ReadRam (Bus.WriteRam ram a v) a = v ∧
    (∀ b, b ≠ a → (Bus.WriteRam ram a v) b = ram b) ∧
    (∀ b, b < 65536 → b ≠ a → Bus.ReadRam (Bus.WriteRam ram a v) b = Bus.ReadRam ram b) ∧
    (∀ b, b < 65536 → Bus.ReadRam ram b = ram b % 256) := by
  have ha' : a % 65536 = a := Nat.mod_eq_of_lt ha
  refine ⟨?_, ?_, ?_, ?_⟩
  · rw [Bus.ReadRam_WriteRam, if_pos rfl]
    exact Nat.mod_eq_of_lt hv
  · intro b hb
    have h1 : a ≤ 65535 := by omega
    unfold Bus.WriteRam
    simp only [Nat.zero_le, true_and, h1, if_true, ha']
    rw [if_neg hb]
  · intro b hb hne
    have hb' : b % 65536 = b := Nat.mod_eq_of_lt hb
    rw [Bus.ReadRam_WriteRam, hb', ha', if_neg hne]
  · intro b hb
    have hb' : b % 65536 = b := Nat.mod_eq_of_lt hb
    have h1 : b ≤ 65535 := by omega
    unfold Bus.ReadRam
    simp only [Nat.zero_le, true_and, hb', h1, if_true]

/-- Witness for C19, the test in `main`: write 70 at `0xF000`, read `0xF000`. -/
theorem Bus_write_then_read_witness :
    0xF000 < 65536 ∧ 70 < 256 ∧ Bus.ReadRam (Bus.WriteRam zeroRam 0xF000 70) 0xF000 = 70 :=
  ⟨by decide, by decide, (Bus_write_then_read zeroRam 0xF000 70 (by decide) (by decide)).1⟩

/-! ## Construction -/

/-- What the zeroing loop leaves in each cell. -/
theorem Bus.zeroLoop_apply (size fuel : Nat) (ram : Ram) (i j : Nat) (h : size ≤ i + fuel) :
    Bus.zeroLoop size fuel ram i j = if i ≤ j ∧ j < size then 0 else ram j := by
  induction fuel generalizing ram i with
  | zero =>
    have : ¬(i ≤ j ∧ j < size) := by omega
    simp only [Bus.zeroLoop, if_neg this]
  | succ f ih =>
    unfold Bus.zeroLoop
    by_cases hi : i < size
    · rw [if_pos hi, ih _ _ (by omega)]
      by_cases hj : j = i
      · subst hj
        have h1 : ¬(j + 1 ≤ j ∧ j < size) := by omega
        have h2 : j ≤ j ∧ j < size := ⟨le_refl _, hi⟩
        simp only [if_neg h1, if_pos h2, if_true]
      · by_cases hc : i + 1 ≤ j ∧ j < size
        · have h2 : i ≤ j ∧ j < size := by omega
          simp only [if_pos hc, if_pos h2]
        · have h2 : ¬(i ≤ j ∧ j < size) := by omega
          simp only [if_neg hc, if_neg h2, if_neg hj]
    · have h2 : ¬(i ≤ j ∧ j < size) := by omega
      rw [if_neg hi, if_neg h2]

/-- Claim C21, evaluated where it fails. The CPU constructor alone leaves `PC = 0`, but
`Bus::Bus` then calls `cpu.ZP0()`, which reads the byte at `PC` and increments `PC`: after
construction `PC = 1`.  The other registers, `cycles` and all 65536 bytes of memory are 0. -/
theorem Bus_constructor_leaves_PC_1 (fresh : Ram) :
    (NES6502.new fresh).pc = 0 ∧ (Bus.new fresh).pc = 1 ∧
    (Bus.new fresh).a = 0 ∧ (Bus.new fresh).x = 0 ∧ (Bus.new fresh).y = 0 ∧
    (Bus.new fresh).stkp = 0 ∧ (Bus.new fresh).status = 0 ∧ (Bus.new fresh).cycles = 0 ∧
    ∀ j, j < 65536 → (Bus.new fresh).bus j = 0 := by
  refine ⟨rfl, rfl, rfl, rfl, rfl, rfl, rfl, rfl, ?_⟩
  intro j hj
  unfold Bus.new
  simp only [ZP0]
  rw [Bus.zeroLoop_apply _ _ _ _ _ (by omega), if_pos (by omega)]

/-! ## The unused flag along a run -/

set_option maxRecDepth 100000 in
/-- Counterexample for C22. After `Reset`, eight ticks and the six ticks of an `RTI` that pops
`0x00`, the machine is at an instruction boundary with bit 5 (U) of the status register
clear. -/
theorem U_clear_after_RTI_counterexample :
    (run (List.replicate 14 Signal.Clock) (Reset rtiBoot)).cycles = 0 ∧
    (run (List.replicate 14 Signal.Clock) (Reset rtiBoot)).opcode = 0x40 ∧
    (run (List.replicate 14 Signal.Clock) (Reset rtiBoot)).status &&& FLAGS.U.mask = 0 := by
  decide

/-- An addressing-mode handler leaves the status register alone. -/
theorem runAddrMode_status (m : ModeTag) (s : NES6502) :
    (runAddrMode m s).1.status = s.status := by
  cases m <;>
    simp only [runAddrMode, IMP, IMM, ZP0, ZPX, ZPY, REL, ABS, ABX, ABY, IND, IZX, IZY] <;>
    (try split) <;> simp

/-- Every instruction handler but `RTI` leaves the status register alone. -/
theorem runInstruction_status (i : InstrTag) (s : NES6502) (h : i ≠ InstrTag.RTI) :
    (runInstruction i s).1.status = s.status := by
  cases i <;> (try exact absurd rfl h) <;>
    simp only [runInstruction, NES6502.ADC, NES6502.AND, ASL, BCC, BCS, BEQ, BIT, BMI, BNE,
      BPL, BRK, BVC, BVS, CLC, CLD, CLI, CLV, CMP, CPX, CPY, DEC, DEX, DEY, EOR, INC, INX,
      INY, JMP, JSR, LDA, LDX, LDY, LSR, NOP, ORA, PHA, PHP, PLA, PLP, ROL, ROR, RTS,
      NES6502.SBC, SEC, SED, SEI, STA, STX, STY, TAX, TAY, TSX, TXA, TXS, TYA, XXX,
      FetchData, SetFlag, GetFlag, NES6502.WriteRam] <;>
    (try simp only [Nat.zero_ne_one, if_true, if_false]) <;>
    (try split_ifs) <;> (try rfl)

/-- A `Clock` call that does not start an `RTI` leaves the status register alone. -/
theorem Clock_status (s : NES6502) (h : startsRTI s = false) :
    (Clock s).status = s.status := by
  by_cases hc : s.cycles = 0
  · have hi : (lookup (s.ReadRam s.pc)).instruction ≠ InstrTag.RTI := by
      intro hi
      simp [startsRTI, hc, hi] at h
    rw [Clock_boundary s hc]
    show (runInstruction _ _).1.status = s.status
    rw [runInstruction_status _ _ hi, runAddrMode_status]
  · simp only [Clock, hc, if_false]

/-- `IRQ` leaves the status register alone. -/
theorem IRQ_status (s : NES6502) : (IRQ s).status = s.status := by
  unfold IRQ
  rw [if_pos (by rfl)]
  simp only [SetFlag, NES6502.WriteRam]

/-- `NMI` leaves the status register alone. -/
theorem NMI_status (s : NES6502) : (NMI s).status = s.status := by
  unfold NMI
  simp only [SetFlag, NES6502.WriteRam]

/-- Along a run in which no `RTI` starts, the status register keeps its value. -/
theorem run_status (calls : List Signal) (s : NES6502) (h : noRTI calls s = true) :
    (run calls s).status = s.status := by
  induction calls generalizing s with
  | nil => rfl
  | cons c cs ih =>
    simp only [noRTI, Bool.and_eq_true, Bool.not_eq_true', Bool.and_eq_false_iff,
      decide_eq_false_iff_not] at h
    have hstep : (c.call s).status = s.status := by
      cases c with
      | Clock =>
        rcases h.1 with h1 | h1
        · exact absurd rfl h1
        · exact Clock_status s h1
      | IRQ => exact IRQ_status s
      | NMI => exact NMI_status s
    show (run cs (c.call s)).status = s.status
    rw [ih _ h.2, hstep]

/-- Claim C22, amended. In every state reachable from `Reset` by a sequence of `Clock`, `IRQ`
and `NMI` calls in which no `Clock` call starts an `RTI` instruction, over any memory
contents, bit 5 (U) of the status register is 1; in particular whenever an instruction has
just completed. -/
theorem U_set_without_RTI (s : NES6502) (calls : List Signal)
    (h : noRTI calls (Reset s) = true) :
    (run calls (Reset s)).status &&& FLAGS.U.mask = FLAGS.U.mask := by
  rw [run_status calls (Reset s) h]
  show (0 ||| FLAGS.U.mask) % 256 &&& FLAGS.U.mask = FLAGS.U.mask
  decide

set_option maxRecDepth 100000 in
/-- Witness for C22: `Reset`, eight ticks, a `NOP`, an `IRQ` with its seven ticks and an
`NMI`. -/
theorem U_set_without_RTI_witness :
    noRTI (List.replicate 10 Signal.Clock ++ [Signal.IRQ] ++ List.replicate 7 Signal.Clock
      ++ [Signal.NMI]) (Reset nopBoot) = true ∧
    (run (List.replicate 10 Signal.Clock ++ [Signal.IRQ] ++ List.replicate 7 Signal.Clock
      ++ [Signal.NMI]) (Reset nopBoot)).status &&& FLAGS.U.mask = FLAGS.U.mask :=
  ⟨by decide, U_set_without_RTI nopBoot _ (by decide)⟩

/-! ## The stack page -/

/-- The cells of the RAM after a write. -/
theorem Bus.WriteRam_apply (ram : Ram) (a v b : Nat) :
    Bus.WriteRam ram a v b = if b = a % 65536 then v % 256 else ram b := by
  have ha : a % 65536 ≤ 65535 := by omega
  unfold Bus.WriteRam
  simp only [Nat.zero_le, true_and, ha, if_true]

/-- A read depends only on the cell it addresses. -/
theorem Bus.ReadRam_congr (ram ram2 : Ram) (a : Nat) (h : ram (a % 65536) = ram2 (a % 65536)) :
    Bus.ReadRam ram a = Bus.ReadRam ram2 a := by
  unfold Bus.ReadRam
  simp only [h]

/-- Claim C23. For every stack pointer byte `S`, wrap-around included: `PHA`, `IRQ` and `NMI`
leave every cell outside `0x0100..0x01FF` unchanged; and `PLA` and `RTI` give the same
registers over any memory that agrees with the present one on `0x0100..0x01FF`, so they read
their stack bytes from that page only. -/
theorem stack_stays_in_page_one (s : NES6502) (hS : s.stkp < 256) :
    (∀ addr, ¬(0x0100 ≤ addr ∧ addr ≤ 0x01FF) →
      (PHA s).1.bus addr = s.bus addr ∧ (IRQ s).bus addr = s.bus addr ∧
      (NMI s).bus addr = s.bus addr) ∧
    (∀ ram : Ram, (∀ addr, 0x0100 ≤ addr → addr ≤ 0x01FF → ram addr = s.bus addr) →
      (PLA { s with bus := ram }).1 = { (PLA s).1 with bus := ram } ∧
      (RTI { s with bus := ram }).1 = { (RTI s).1 with bus := ram }) := by
  refine ⟨?_, ?_⟩
  · intro addr hout
    refine ⟨?_, ?_, ?_⟩
    · unfold PHA
      simp only [NES6502.WriteRam, Bus.WriteRam_apply]
      rw [if_neg (by omega)]
    · unfold IRQ
      rw [if_pos (by rfl)]
      simp only [SetFlag, NES6502.WriteRam, Bus.WriteRam_apply]
      rw [if_neg (by omega), if_neg (by omega), if_neg (by omega)]
    · unfold NMI
      simp only [SetFlag, NES6502.WriteRam, Bus.WriteRam_apply]
      rw [if_neg (by omega), if_neg (by omega), if_neg (by omega)]
  · intro ram hpage
    have hread : ∀ k, Bus.ReadRam ram ((0x0100 + k % 256) % 65536)
        = Bus.ReadRam s.bus ((0x0100 + k % 256) % 65536) := by
      intro k
      apply Bus.ReadRam_congr
      exact hpage _ (by omega) (by omega)
    have h1 : ((s.stkp + 1) % 256 + 1) % 256 = (s.stkp + 2) % 256 := by omega
    have h2 : ((s.stkp + 2) % 256 + 1) % 256 = (s.stkp + 3) % 256 := by omega
    refine ⟨?_, ?_⟩
    · unfold PLA
      simp only [SetFlag, NES6502.ReadRam, hread]
    · unfold RTI
      simp only [SetFlag, NES6502.ReadRam, h1, h2, hread]

/-- Witness for C23: `S = 0`, where two of the three pushes of `IRQ` wrap; a cell below and
a cell above the page keep their contents. -/
theorem stack_stays_in_page_one_witness :
    pushState.stkp < 256 ∧
    (IRQ pushState).bus 0x00FF = pushState.bus 0x00FF ∧
    (IRQ pushState).bus 0x0200 = pushState.bus 0x0200 :=
  ⟨by decide,
    ((stack_stays_in_page_one pushState (by decide)).1 0x00FF (by decide)).2.1,
    ((stack_stays_in_page_one pushState (by decide)).1 0x0200 (by decide)).2.1⟩

/-! ## Page crossing of the indexed modes -/

/-- Claim C24, evaluated where it fails. With `lo = 0xFF`, `hi = 0x01` and index 1 the sum
`lo + index` exceeds `0xFF` and the indexed address `0x0200` has another high byte than
`hi`, but `ABX`, `ABY` and `IZY` return 0. -/
theorem indexed_modes_miss_page_cross :
    0xFF + indexedState.x > 0xFF ∧ 0xFF + indexedState.y > 0xFF ∧
    ((((0x01 <<< 8) ||| 0xFF) + 1) % 65536) >>> 8 ≠ 0x01 ∧
    (ABX indexedState).2 = 0 ∧ (ABY indexedState).2 = 0 ∧ (IZY izyState).2 = 0 := by
  decide

/-! ## Zero-page modes -/

/-- Claim C25. With `z` the operand byte at `PC`: `ZP0` sets `addr_abs = z`, `ZPX` sets it to
`(z + X) mod 256`, `ZPY` to `(z + Y) mod 256`, all below 256; `IZX` joins the byte at
`(z + X) mod 256` (low) and the byte at `(z + X + 1) mod 256` (high); each advances `PC` by
1 in 16 bits and returns 0. -/
theorem zero_page_modes (s : NES6502) :
    ((ZP0 s).1.addr_abs = s.ReadRam s.pc ∧ (ZP0 s).1.addr_abs < 256 ∧
      (ZP0 s).1.pc = (s.pc + 1) % 65536 ∧ (ZP0 s).2 = 0) ∧
    ((ZPX s).1.addr_abs = (s.ReadRam s.pc + s.x) % 256 ∧
      (ZPX s).1.pc = (s.pc + 1) % 65536 ∧ (ZPX s).2 = 0) ∧
    ((ZPY s).1.addr_abs = (s.ReadRam s.pc + s.y) % 256 ∧
      (ZPY s).1.pc = (s.pc + 1) % 65536 ∧ (ZPY s).2 = 0) ∧
    ((IZX s).1.addr_abs = s.ReadRam ((s.ReadRam s.pc + s.x) % 256) |||
        (s.ReadRam ((s.ReadRam s.pc + s.x + 1) % 256) <<< 8) ∧
      (IZX s).1.pc = (s.pc + 1) % 65536 ∧ (IZX s).2 = 0) := by
  have hz := read_byte s s.pc
  refine ⟨⟨?_, ?_, rfl, rfl⟩, ⟨?_, rfl, rfl⟩, ⟨?_, rfl, rfl⟩, ⟨?_, rfl, rfl⟩⟩
  · show NES6502.ReadRam _ s.pc &&& 0x00FF = s.ReadRam s.pc
    rw [lo_byte]
    exact Nat.mod_eq_of_lt hz
  · show NES6502.ReadRam _ s.pc &&& 0x00FF < 256
    rw [lo_byte]
    exact Nat.mod_lt _ (by decide)
  · show (s.ReadRam s.pc + s.x) % 65536 &&& 0x00FF = _
    rw [lo_byte]
    omega
  · show (s.ReadRam s.pc + s.y) % 65536 &&& 0x00FF = _
    rw [lo_byte]
    omega
  · have hw := word_lt _ _ (read_byte s ((s.ReadRam s.pc + s.x + 1) % 256))
      (read_byte s ((s.ReadRam s.pc + s.x) % 256))
    unfold IZX
    simp only [NES6502.ReadRam, lo_byte] at hw ⊢
    rw [Nat.mod_eq_of_lt hw, Nat.lor_comm]

/-! ## The opcode table -/

/-- Claim C26. The opcode table has exactly 256 rows, so the row of every opcode byte is a
row of the table; every row has a base cycle count from 2 to 8; and so a `Clock` call at an
instruction boundary leaves `cycles` between 1 and 10: the decrement that ends it starts
from at least 2 and does not wrap. -/
theorem opcode_table_total :
    instructionSetLookup.length = 256 ∧
    (∀ opcode, opcode < 256 → instructionSetLookup[opcode]? = some (lookup opcode)) ∧
    (∀ e ∈ instructionSetLookup, 2 ≤ e.cycles ∧ e.cycles ≤ 8) ∧
    (∀ s : NES6502, s.cycles = 0 → 1 ≤ (Clock s).cycles ∧ (Clock s).cycles ≤ 10) := by
  refine ⟨table_length, ?_, table_cycles, ?_⟩
  · intro opcode h
    have hlen : opcode < instructionSetLookup.length := by rw [table_length]; exact h
    unfold lookup
    rw [List.getD_eq_getElem _ _ hlen, List.getElem?_eq_getElem hlen]
  · intro s h
    have hb := lookup_cycles (s.ReadRam s.pc) (read_byte _ _)
    have hA := runAddrMode_frame (lookup (s.ReadRam s.pc)).addrMode
      { s with opcode := s.ReadRam s.pc, pc := (s.pc + 1) % 65536,
               cycles := (lookup (s.ReadRam s.pc)).cycles }
    have hand := @Nat.and_le_left
      (runAddrMode (lookup (s.ReadRam s.pc)).addrMode
        { s with opcode := s.ReadRam s.pc, pc := (s.pc + 1) % 65536,
                 cycles := (lookup (s.ReadRam s.pc)).cycles }).2
      (runInstruction (lookup (s.ReadRam s.pc)).instruction
        (runAddrMode (lookup (s.ReadRam s.pc)).addrMode
          { s with opcode := s.ReadRam s.pc, pc := (s.pc + 1) % 65536,
                   cycles := (lookup (s.ReadRam s.pc)).cycles }).1).2
    have hpen : branchPenalty (lookup (s.ReadRam s.pc)).instruction
        (runAddrMode (lookup (s.ReadRam s.pc)).addrMode
          { s with opcode := s.ReadRam s.pc, pc := (s.pc + 1) % 65536,
                   cycles := (lookup (s.ReadRam s.pc)).cycles }).1 ≤ 2 := by
      unfold branchPenalty
      split_ifs <;> omega
    rw [Clock_boundary s h]
    simp only []
    omega

/-- Witness for C26: the row of `0xA9` and the first tick of `BCC +32` across a page, which
leaves `cycles = 3`. -/
theorem opcode_table_total_witness :
    instructionSetLookup[0xA9]? = some (lookup 0xA9) ∧ branchState.cycles = 0 ∧
    1 ≤ (Clock branchState).cycles ∧ (Clock branchState).cycles ≤ 10 :=
  ⟨opcode_table_total.2.1 0xA9 (by decide), rfl, opcode_table_total.2.2.2 branchState rfl⟩

/-! ## Interrupt and return -/

/-- A word is its low byte joined with its high byte shifted left by 8. -/
theorem word_join (p : Nat) : (p % 256) ||| ((p / 256) <<< 8) = p := by
  have h8 : p % 256 < 2 ^ 8 := Nat.mod_lt _ (by decide)
  have := @Nat.mul_add_lt_is_or 8 (p % 256) h8 (p / 256)
  rw [Nat.lor_comm, Nat.shiftLeft_eq, Nat.mul_comm, ← this]
  omega

/-- Claim C27. In every state in which `IRQ` is serviced, for every stack pointer byte `S` and
every memory, `IRQ` followed by `RTI` restores `PC` and `S`; the byte `IRQ` pushes at
`0x0100 | ((S - 2) mod 256)` is the status register `P` it was entered with; and `RTI`
leaves the status register equal to that pushed byte with bits 4 (B) and 5 (U) cleared,
that is to `P` with bits 4 and 5 cleared. -/
theorem IRQ_then_RTI (s : NES6502) (_hserv : s.GetFlag FLAGS.I = 0) (hS : s.stkp < 256)
    (hpc : s.pc < 65536) (hP : s.status < 256) :
    (RTI (IRQ s)).1.pc = s.pc ∧ (RTI (IRQ s)).1.stkp = s.stkp ∧
    (IRQ s).ReadRam (0x0100 ||| ((s.stkp + 254) % 256)) = s.status ∧
    (RTI (IRQ s)).1.status
      = (IRQ s).ReadRam (0x0100 ||| ((s.stkp + 254) % 256)) &&& 0xCF ∧
    (RTI (IRQ s)).1.status = s.status &&& 0xCF := by
  have e1 : ((((s.stkp + 255) % 256 + 255) % 256 + 255) % 256 + 1) % 256
      = (s.stkp + 254) % 256 := by omega
  have e2 : ((s.stkp + 254) % 256 + 1) % 256 = (s.stkp + 255) % 256 := by omega
  have e3 : ((s.stkp + 255) % 256 + 1) % 256 = s.stkp := by omega
  rw [stack_or _ (Nat.mod_lt _ (by decide))]
  unfold RTI IRQ
  rw [if_pos (by rfl)]
  simp only [SetFlag, NES6502.ReadRam, NES6502.WriteRam, e1, e2, e3, Bus.ReadRam_WriteRam,
    shr8, lo_byte]
  have a1 : s.pc % 256 % 256 % 256 % 65536 = s.pc % 256 := by omega
  have a2 : s.pc / 256 % 256 % 256 % 256 % 65536 = s.pc / 256 := by omega
  have a3 : s.status % 256 % 256 = s.status := by omega
  refine ⟨?_, trivial, ?_, ?_, ?_⟩
  · rw [if_neg (by omega), if_pos trivial, if_neg (by omega), if_neg (by omega),
      if_pos trivial, a1, a2, word_join, Nat.mod_eq_of_lt hpc]
  · rw [if_pos (by omega), a3]
  · rw [if_pos (by omega)]
    exact clear_B_U _ (by omega)
  · rw [if_pos (by omega), a3]
    exact clear_B_U _ hP

/-- Witness for C27: `S = 0xFD`, `PC = 0x1234`, `P = 0xF3`: the byte pushed at `0x01FB` is
`0xF3` and `RTI` leaves `P = 0xC3`. -/
theorem IRQ_then_RTI_witness :
    (irqState 0xF3).GetFlag FLAGS.I = 0 ∧ (irqState 0xF3).stkp < 256 ∧
    (irqState 0xF3).pc < 65536 ∧ (irqState 0xF3).status < 256 ∧
    (RTI (IRQ (irqState 0xF3))).1.pc = 0x1234 ∧ (RTI (IRQ (irqState 0xF3))).1.stkp = 0xFD ∧
    (IRQ (irqState 0xF3)).ReadRam 0x01FB = 0xF3 ∧
    (RTI (IRQ (irqState 0xF3))).1.status = (IRQ (irqState 0xF3)).ReadRam 0x01FB &&& 0xCF ∧
    (RTI (IRQ (irqState 0xF3))).1.status = 0xC3 :=
  ⟨rfl, by decide, by decide, by decide,
    IRQ_then_RTI (irqState 0xF3) rfl (by decide) (by decide) (by decide)⟩

/-! ## Indexed modes without a page cross -/

/-- Two bytes joined by `|` are the sum of the shifted high byte and the low byte. -/
theorem word_or_add (hi v : Nat) (hv : v < 256) : (hi <<< 8) ||| v = hi * 256 + v := by
  have h8 : v < 2 ^ 8 := by omega
  have := @Nat.mul_add_lt_is_or 8 v h8 hi
  rw [Nat.shiftLeft_eq, Nat.mul_comm, ← this]

/-- The indexed address and the return value when `lo + index` stays in the low byte. -/
theorem indexed_no_cross (hi lo idx : Nat) (hh : hi < 256) (hl : lo + idx ≤ 0xFF) :
    ((hi <<< 8) ||| (lo + idx)) % 65536 = ((hi <<< 8) ||| lo) + idx ∧
    (((hi <<< 8) ||| (lo + idx)) % 65536 &&& 0xFF00) = hi <<< 8 := by
  rw [word_or_add hi (lo + idx) (by omega), word_or_add hi lo (by omega), and_FF00, shl8]
  omega

/-- Claim C28. When `lo + index <= 0xFF`, with `lo` and `hi` the operand bytes at `PC` (for
`IZY` the zero-page bytes at `z` and `(z + 1) mod 256`), `ABX`, `ABY` and `IZY` set
`addr_abs` to `((hi << 8) | lo) + index` and return 0. -/
theorem indexed_modes_no_page_cross (s : NES6502) :
    (s.ReadRam s.pc + s.x ≤ 0xFF →
      (ABX s).1.addr_abs
        = ((s.ReadRam ((s.pc + 1) % 65536) <<< 8) ||| s.ReadRam s.pc) + s.x ∧
      (ABX s).2 = 0) ∧
    (s.ReadRam s.pc + s.y ≤ 0xFF →
      (ABY s).1.addr_abs
        = ((s.ReadRam ((s.pc + 1) % 65536) <<< 8) ||| s.ReadRam s.pc) + s.y ∧
      (ABY s).2 = 0) ∧
    (s.ReadRam (s.ReadRam s.pc) + s.y ≤ 0xFF →
      (IZY s).1.addr_abs
        = ((s.ReadRam ((s.ReadRam s.pc + 1) % 256) <<< 8) ||| s.ReadRam (s.ReadRam s.pc))
          + s.y ∧
      (IZY s).2 = 0) := by
  have hz := read_byte s s.pc
  have hzz : s.ReadRam s.pc % 256 = s.ReadRam s.pc := Nat.mod_eq_of_lt hz
  refine ⟨?_, ?_, ?_⟩
  · intro h
    obtain ⟨h1, h2⟩ := indexed_no_cross _ _ _ (read_byte s ((s.pc + 1) % 65536)) h
    unfold ABX
    simp only [NES6502.ReadRam] at h1 h2 ⊢
    rw [if_neg (by rw [h2]; exact fun hne => hne rfl)]
    exact ⟨h1, rfl⟩
  · intro h
    obtain ⟨h1, h2⟩ := indexed_no_cross _ _ _ (read_byte s ((s.pc + 1) % 65536)) h
    unfold ABY
    simp only [NES6502.ReadRam] at h1 h2 ⊢
    rw [if_neg (by rw [h2]; exact fun hne => hne rfl)]
    exact ⟨h1, rfl⟩
  · intro h
    obtain ⟨h1, h2⟩ := indexed_no_cross _ _ _ (read_byte s ((s.ReadRam s.pc + 1) % 256)) h
    unfold IZY
    simp only [NES6502.ReadRam, lo_byte, hzz] at h1 h2 hzz ⊢
    rw [if_neg (by rw [h2]; exact fun hne => hne rfl)]
    exact ⟨h1, rfl⟩

/-- Witness for C28: `lo = 0x10`, `hi = 0x20` with `X = 5` and `Y = 7`. -/
theorem indexed_modes_no_page_cross_witness :
    noCrossState.ReadRam noCrossState.pc + noCrossState.x ≤ 0xFF ∧
    (ABX noCrossState).1.addr_abs = 0x2015 ∧ (ABX noCrossState).2 = 0 ∧
    noCrossState.ReadRam noCrossState.pc + noCrossState.y ≤ 0xFF ∧
    (ABY noCrossState).1.addr_abs = 0x2017 ∧ (ABY noCrossState).2 = 0 ∧
    izyNoCrossState.ReadRam (izyNoCrossState.ReadRam izyNoCrossState.pc)
      + izyNoCrossState.y ≤ 0xFF ∧
    (IZY izyNoCrossState).1.addr_abs = 0x2017 ∧ (IZY izyNoCrossState).2 = 0 :=
  ⟨by decide, ((indexed_modes_no_page_cross noCrossState).1 (by decide)).1,
    ((indexed_modes_no_page_cross noCrossState).1 (by decide)).2,
    by decide, ((indexed_modes_no_page_cross noCrossState).2.1 (by decide)).1,
    ((indexed_modes_no_page_cross noCrossState).2.1 (by decide)).2,
    by decide, ((indexed_modes_no_page_cross izyNoCrossState).2.2 (by decide)).1,
    ((indexed_modes_no_page_cross izyNoCrossState).2.2 (by decide)).2⟩

end Nesem
